import Mathlib

/-!
Shallow embedding of the barcode approval API (`src/api/main.py` together
with the response models of `src/api/models.py`) of the production-order
fulfillment system, and proofs about its barcode resolution and approval
state machine.

Modelling conventions:
* The Firebird database is a record of tables (lists of rows, in table
  order); SQL queries become list joins/filters preserving bag semantics,
  and each `execute_update` becomes a pure transformation of the state
  returning the statement's row count, as `database.py` commits every
  statement on its own.
* Machine integers are `Nat`/`Int`; nullable columns are `Option`.
* Timestamps and dates are abstract `Nat` tokens; `CURRENT_TIMESTAMP` is the
  request-constant `DB.now`, and `strftime` renderings are the abstract
  injective functions `fmtDate`/`fmtDateTime`.
* String primitives are modelled on the character list `s.data` so that
  everything evaluates inside the kernel. Python `str.strip` is `pyStrip`,
  `str.isdigit` is `pyIsdigit` (ASCII digits; exotic Unicode digit classes
  are not modelled), `int(...)` is `pyInt?` (sign and ASCII digits;
  underscore grouping is not modelled), and `str.upper` is `pyUpper`
  (ASCII case mapping).
* pydantic's validation of `ProductInfo` (models.py declares
  `order_number`, `construction_number`, `item_number`, `orderitems_id`,
  `orderitems_name`, `qty` and `glass_orderitems_id` as required and
  non-Optional, and rejects `None` for them; the unknown `proddate` keyword
  argument is ignored) is `mkProductInfo`; a failed validation raises
  `ValidationError`, a subclass of `ValueError`, modelled as `PyResult.exn`.
-/

namespace Barcodes

/-- Python string truthiness (`if s:`): non-empty. -/
def pyTruthy (s : String) : Bool :=
  !s.data.isEmpty

/-- Python `str.isdigit` for ASCII digit strings: non-empty and all digits. -/
def pyIsdigit (s : String) : Bool :=
  !s.data.isEmpty && s.data.all Char.isDigit

/-- Python `str.strip`: drop whitespace from both ends. -/
def pyStrip (s : String) : String :=
  ⟨((s.data.dropWhile Char.isWhitespace).reverse.dropWhile Char.isWhitespace).reverse⟩

/-- Python `str.upper` (ASCII case mapping). -/
def pyUpper (s : String) : String :=
  ⟨s.data.map Char.toUpper⟩

/-- Python `s[:n]` (first `n` characters). -/
def pyTake (s : String) (n : Nat) : String :=
  ⟨s.data.take n⟩

/-- Python `s[n:]` (all but the first `n` characters). -/
def pyDrop (s : String) (n : Nat) : String :=
  ⟨s.data.drop n⟩

/-- Python `x.strip() if x else None` on a nullable string column. -/
def pyStripOpt (o : Option String) : Option String :=
  match o with
  | some s => if pyTruthy s then some (pyStrip s) else none
  | none => none

/-- Python `x.strip() if x else dflt` on a nullable string column. -/
def pyStripOr (o : Option String) (dflt : String) : String :=
  match o with
  | some s => if pyTruthy s then pyStrip s else dflt
  | none => dflt

/-- Python `f"{x}"` of an `Optional[str]` value (`None` renders as "None"). -/
def pyShowOptStr (o : Option String) : String :=
  match o with
  | some s => s
  | none => "None"

/-- Decimal value of a list of ASCII digits. -/
def digitsToNat (l : List Char) : Nat :=
  l.foldl (fun n c => n * 10 + (c.toNat - 48)) 0

/-- Numeric value of an all-digits string (used once `isdigit` passed). -/
def natFromDigits (s : String) : Nat :=
  digitsToNat s.data

/-- Python `int(s)`: optional surrounding whitespace, optional sign, decimal
digits; `none` models a raised `ValueError`. -/
def pyInt? (s : String) : Option Int :=
  match (pyStrip s).data with
  | '+' :: rest =>
    if !rest.isEmpty && rest.all Char.isDigit then some (digitsToNat rest : Nat) else none
  | '-' :: rest =>
    if !rest.isEmpty && rest.all Char.isDigit then some (-((digitsToNat rest : Nat) : Int)) else none
  | t =>
    if !t.isEmpty && t.all Char.isDigit then some (digitsToNat t : Nat) else none

/-- Python `s.split(c, 1)` on the first occurrence of `c`, on character lists. -/
def splitFirstOn (c : Char) : List Char → List Char × List Char
  | [] => ([], [])
  | x :: xs =>
    if x = c then ([], xs)
    else
      let p := splitFirstOn c xs
      (x :: p.1, p.2)

/-- Python `s.split(sep, 1)` yielding the two parts (when `sep` occurs in `s`). -/
def pySplit1 (s : String) (c : Char) : String × String :=
  let p := splitFirstOn c s.data
  (⟨p.1⟩, ⟨p.2⟩)

/-- Python `s.split(sep)` on every occurrence, on character lists. -/
def splitAllOn (c : Char) : List Char → List (List Char)
  | [] => [[]]
  | x :: xs =>
    if x = c then [] :: splitAllOn c xs
    else
      match splitAllOn c xs with
      | [] => [[x]]
      | g :: gs => (x :: g) :: gs

/-- Python `s.split(sep)` (all occurrences, empty pieces kept). -/
def pySplit (s : String) (c : Char) : List String :=
  (splitAllOn c s.data).map (fun l => ⟨l⟩)

/-- Barcode kinds returned by the classifier (`type` values of the source's dict). -/
inductive BKind where
  | IZD
  | ORD
  | ITM
  | SET
  | LEGACY_IZD
  | LEGACY_ORD
  | UNKNOWN
deriving DecidableEq, Repr

/-- Result of `parse_barcode`: the dict `{'type': ..., 'value': ...}`. -/
structure ParsedBarcode where
  type : BKind
  value : String
deriving DecidableEq, Repr

/-- Transcription of `parse_barcode` (`src/api/main.py:33`). The original
splits with `split('-', 1)`, whose result always has exactly two parts when
`'-' in barcode`, so the `len(parts) == 2` test of the source is always true
there and is not a separate branch here. -/
def parse_barcode (raw : String) : ParsedBarcode :=
  let barcode := pyUpper (pyStrip raw)
  if barcode.data.contains '-' then
    let parts := pySplit1 barcode '-'
    let pfx := pyStrip parts.1
    let v := pyStrip parts.2
    if pfx = "D" then ⟨.IZD, v⟩
    else if pfx = "ORD" then ⟨.ORD, v⟩
    else if pfx = "T" then ⟨.ITM, v⟩
    else if pfx = "S" then ⟨.SET, v⟩
    else if pfx = "IZD" then ⟨.IZD, v⟩
    else if pfx = "ITM" then ⟨.ITM, v⟩
    else if pfx = "SET" then ⟨.SET, v⟩
    else if pyIsdigit barcode then
      if barcode.length = 9 then ⟨.LEGACY_IZD, barcode⟩ else ⟨.LEGACY_ORD, barcode⟩
    else ⟨.UNKNOWN, barcode⟩
  else if pyIsdigit barcode then
    if barcode.length = 9 then ⟨.LEGACY_IZD, barcode⟩ else ⟨.LEGACY_ORD, barcode⟩
  else ⟨.UNKNOWN, barcode⟩

example : parse_barcode "D-123456789" = ⟨.IZD, "123456789"⟩ := by decide
example : parse_barcode "IZD-123456789" = ⟨.IZD, "123456789"⟩ := by decide
example : parse_barcode "123456789" = ⟨.LEGACY_IZD, "123456789"⟩ := by decide
example : parse_barcode "12345" = ⟨.LEGACY_ORD, "12345"⟩ := by decide
example : parse_barcode " ord-55 " = ⟨.ORD, "55"⟩ := by decide
example : parse_barcode "t-42" = ⟨.ITM, "42"⟩ := by decide
example : parse_barcode "S-7" = ⟨.SET, "7"⟩ := by decide
example : parse_barcode "X-12" = ⟨.UNKNOWN, "X-12"⟩ := by decide
example : parse_barcode "hello" = ⟨.UNKNOWN, "HELLO"⟩ := by decide
example : pyInt? "42" = some 42 := by decide
example : pyInt? " -7 " = some (-7) := by decide
example : pyInt? "ABC" = none := by decide
example : pyInt? "" = none := by decide
example : pySplit "19686 / 01 / C-1" '/' = ["19686 ", " 01 ", " C-1"] := by decide

/-! Database rows. Field names follow the column names the queries select. -/

/-- A row of `ORDERS`. -/
structure Order where
  orderid : Nat
  orderno : Option String
  proddate : Option Nat
  orderstateid : Option Nat
  rcomment : Option String
deriving DecidableEq, Repr

/-- A row of `ORDERITEMS`. -/
structure OrderItem where
  orderitemsid : Nat
  name : Option String
  orderid : Nat
  qty : Int
deriving DecidableEq, Repr

/-- A row of `MODELS`. -/
structure PModel where
  modelid : Nat
  modelno : Nat
  orderitemsid : Nat
deriving DecidableEq, Repr

/-- A row of `CT_ELEMENTS`. -/
structure CTElement where
  ctelementsid : Nat
  rname : Option String
  width : Option Int
  height : Option Int
  modelid : Nat
  orderitemsid : Option Nat
  itemsdetailid : Option Nat
  itemssetsid : Option Nat
  cttypeelemsid : Nat
deriving DecidableEq, Repr

/-- A row of `CT_WHDETAIL` (the unit of approval). -/
structure WHDetail where
  ctwhdetailid : Nat
  ctelementsid : Nat
  itemno : Nat
  isapproved : Nat
  userapproved : Option Nat
  dateapproved : Option Nat
  qty : Int
deriving DecidableEq, Repr

/-- A row of `ORDERSTATES`. -/
structure OrderState where
  orderstateid : Nat
  name : Option String
deriving DecidableEq, Repr

/-- A row of `ORDERSTATESREG` (the append-only state transition log). The
`orderid` is stored as the parameter the INSERT received (a Python int). -/
structure StateReg where
  orderstatesregid : Nat
  orderid : Int
  orderstateid : Nat
  empid : Nat
  changedate : Nat
  stateposit : Int
  rcomment : String
deriving DecidableEq, Repr

/-- The database state: the tables touched by the API, the sequence value of
generator `GEN_ORDERSTATESREG`, and the request-constant `CURRENT_TIMESTAMP`. -/
structure DB where
  orders : List Order
  orderitems : List OrderItem
  models : List PModel
  elements : List CTElement
  whdetail : List WHDetail
  orderstatesreg : List StateReg
  orderstates : List OrderState
  genOrderStatesReg : Nat
  now : Nat
deriving DecidableEq, Repr

/-- Rendering of `strftime('%d.%m.%Y')` on an abstract date token. -/
def fmtDate (d : Nat) : String :=
  "date:" ++ toString d

/-- Rendering of `strftime('%d.%m.%Y %H:%M')` on an abstract timestamp token. -/
def fmtDateTime (d : Nat) : String :=
  "datetime:" ++ toString d

/-! Response models (`src/api/models.py`). -/

/-- The validated `ProductInfo` pydantic model: required fields are plain,
optional ones are `Option` (models.py has no `proddate` field). -/
structure ProductInfo where
  order_number : String
  construction_number : String
  item_number : Int
  orderitems_id : Int
  orderitems_name : String
  qty : Int
  element_name : Option String
  width : Option Int
  height : Option Int
  glass_orderitems_id : Int
  order_id : Option Int
  total_items_in_order : Option Int
  approved_items_in_order : Option Int
deriving DecidableEq, Repr

/-- Construction `ProductInfo(...)` with pydantic validation: `none` for a
required (non-Optional) field is rejected, which raises `ValidationError`.
The `proddate` keyword argument of the source has no corresponding model
field and is ignored by pydantic; it is kept here as the unused `_proddate`
so call sites mirror the source argument lists. -/
def mkProductInfo (order_number : Option String) (_proddate : Option String)
    (construction_number : Option String) (item_number : Option Int)
    (orderitems_id : Option Int) (orderitems_name : Option String)
    (qty : Option Int) (element_name : Option String)
    (width : Option Int) (height : Option Int)
    (glass_orderitems_id : Option Int) (order_id : Option Int)
    (total_items_in_order : Option Int) (approved_items_in_order : Option Int) :
    Option ProductInfo :=
  match order_number, construction_number, item_number, orderitems_id,
      orderitems_name, qty, glass_orderitems_id with
  | some onum, some cn, some itn, some oiid, some oin, some q, some gid =>
    some ⟨onum, cn, itn, oiid, oin, q, element_name, width, height, gid,
      order_id, total_items_in_order, approved_items_in_order⟩
  | _, _, _, _, _, _, _ => none

/-- The `ApprovalResponse` pydantic model. -/
structure ApprovalResponse where
  success : Bool
  message : String
  voice_message : String
  product_info : Option ProductInfo
deriving DecidableEq, Repr

/-- Outcome of a Python call: a returned value, or a raised exception (the
only exception arising inside the pure model is pydantic's
`ValidationError`; its rendered text is abstracted). -/
inductive PyResult (α : Type) where
  | ok : α → PyResult α
  | exn : String → PyResult α
deriving DecidableEq, Repr

/-- Abstract rendering of `str(e)` for the pydantic `ValidationError` raised
when a required `ProductInfo` field receives `None`. -/
def validationErrText : String :=
  "validation error for ProductInfo"

/-- Return a response carrying a freshly constructed `ProductInfo`, or raise
(and propagate) the pydantic `ValidationError` when validation fails. -/
def respondWithInfo (success : Bool) (message voice : String)
    (info : Option ProductInfo) (db : DB) : PyResult ApprovalResponse × DB :=
  match info with
  | some pi => (.ok ⟨success, message, voice, some pi⟩, db)
  | none => (.exn validationErrText, db)

/-! Query and update primitives over the database state. -/

/-- SQL equality of a nullable integer column against an int parameter
(`NULL = x` is never true). -/
def optEqInt (o : Option Nat) (i : Int) : Bool :=
  match o with
  | some n => (n : Int) == i
  | none => false

/-- SQL equality of a nullable string column against a string parameter. -/
def optEqStr (o : Option String) (s : String) : Bool :=
  match o with
  | some t => t == s
  | none => false

/-- Python truthiness of a nullable integer (`if x:`): 0 and NULL are falsy. -/
def optTruthy (o : Option Nat) : Bool :=
  match o with
  | some n => n != 0
  | none => false

/-- Query `ORDERITEMS oi INNER JOIN ORDERS o ON oi.ORDERID = o.ORDERID WHERE
oi.ORDERITEMSID = ?` (used for the glass lookup and the enrichment blocks). -/
def orderitemOrderJoin (db : DB) (oiid : Nat) : List (OrderItem × Order) :=
  (db.orderitems.filter (fun oi => oi.orderitemsid == oiid)).flatMap fun oi =>
    (db.orders.filter (fun o => o.orderid == oi.orderid)).map fun o => (oi, o)

/-- Query `ORDERITEMS oi INNER JOIN ORDERS o ON oi.ORDERID = o.ORDERID WHERE
o.ORDERNO = ? AND oi.NAME = ?` (the product lookup of the unit-item path).
CHAR space padding of the SQL comparison is not modelled. -/
def productJoin (db : DB) (ordno nm : String) : List (OrderItem × Order) :=
  db.orderitems.flatMap fun oi =>
    if optEqStr oi.name nm then
      (db.orders.filter (fun o => o.orderid == oi.orderid && optEqStr o.orderno ordno)).map
        fun o => (oi, o)
    else []

/-- The element/warehouse join rows of the per-order statistics queries:
`ORDERS ⋈ ORDERITEMS ⋈ MODELS ⋈ CT_ELEMENTS ⋈ CT_WHDETAIL` restricted to
`o.ORDERID = ?` and `el.CTTYPEELEMSID = 2`. The LEFT JOINs behave as inner
joins here: the `WHERE` on `el.CTTYPEELEMSID` discards element-less rows,
and a whdetail-less row contributes nothing to any of the aggregates
(SUM/COUNT ignore its NULLs), so it is equivalent to omit it. -/
def orderStatsRows (db : DB) (oid : Nat) : List (CTElement × WHDetail) :=
  (db.orders.filter (fun o => o.orderid == oid)).flatMap fun _o =>
    (db.orderitems.filter (fun oi => oi.orderid == oid)).flatMap fun oi =>
      (db.models.filter (fun m => m.orderitemsid == oi.orderitemsid)).flatMap fun m =>
        (db.elements.filter (fun e => e.modelid == m.modelid && e.cttypeelemsid == 2)).flatMap
          fun e =>
            (db.whdetail.filter (fun w => w.ctelementsid == e.ctelementsid)).map
              fun w => (e, w)

/-- `SUM(wd.qty)` over the statistics rows (`NULL` when there is no row). -/
def statTotal (rows : List (CTElement × WHDetail)) : Option Int :=
  match rows with
  | [] => none
  | _ => some (rows.foldl (fun a p => a + p.2.qty) 0)

/-- `SUM(CASE WHEN wd.isapproved = 1 THEN wd.qty ELSE 0 END)` over the rows. -/
def statApproved (rows : List (CTElement × WHDetail)) : Option Int :=
  match rows with
  | [] => none
  | _ => some (rows.foldl (fun a p => a + (if p.2.isapproved == 1 then p.2.qty else 0)) 0)

/-- `COUNT(CASE WHEN wd.isapproved = 0 THEN 1 END)` over the rows (COUNT is
never NULL). -/
def statNotApprovedCount (rows : List (CTElement × WHDetail)) : Nat :=
  (rows.filter (fun p => p.2.isapproved == 0)).length

/-- `UPDATE CT_WHDETAIL SET ISAPPROVED = 1, DATEAPPROVED = CURRENT_TIMESTAMP
WHERE CTWHDETAILID = ?`, returning the affected row count. -/
def updateWH (db : DB) (id : Nat) : Nat × DB :=
  ((db.whdetail.filter (fun w => w.ctwhdetailid == id)).length,
    { db with
        whdetail := db.whdetail.map fun w =>
          if w.ctwhdetailid == id then
            { w with isapproved := 1, dateapproved := some db.now }
          else w })

/-- `SELECT orderstateid FROM orders WHERE orderid = ?`, flattened as the
source does (`current_state[0]['ORDERSTATEID'] if current_state else None`). -/
def currentOrderState (db : DB) (oid : Int) : Option Nat :=
  match db.orders.filter (fun o => (o.orderid : Int) == oid) with
  | [] => none
  | o :: _ => o.orderstateid

/-- `MAX` of a list of SQL integers (`NULL` on the empty set). -/
def listMaxInt : List Int → Option Int
  | [] => none
  | x :: xs =>
    match listMaxInt xs with
    | none => some x
    | some m => some (max x m)

/-- `SELECT MAX(stateposit) FROM orderstatesreg WHERE orderid = ?`. -/
def maxStatePosit (db : DB) (oid : Int) : Option Int :=
  listMaxInt ((db.orderstatesreg.filter (fun r => r.orderid == oid)).map
    (fun r => r.stateposit))

/-- `INSERT INTO orderstatesreg (orderstatesregid, orderid, orderstateid,
empid, changedate, stateposit, rcomment) VALUES (GEN_ID(GEN_ORDERSTATESREG, 1),
?, st, 8, CURRENT_TIMESTAMP, ?, comment)`. -/
def insertStateReg (db : DB) (oid : Int) (st : Nat) (posit : Int)
    (comment : String) : DB :=
  { db with
      genOrderStatesReg := db.genOrderStatesReg + 1,
      orderstatesreg := db.orderstatesreg ++
        [⟨db.genOrderStatesReg + 1, oid, st, 8, db.now, posit, comment⟩] }

/-- `UPDATE orders SET orderstateid = st WHERE orderid = ?`. -/
def updateOrderState (db : DB) (oid : Int) (st : Nat) : DB :=
  { db with
      orders := db.orders.map fun o =>
        if (o.orderid : Int) == oid then { o with orderstateid := some st } else o }

/-! The shared order-information enrichment block of the material and set
resolvers (`src/api/main.py:149`-201 and 376-422): order number, formatted
production date, order id and the per-order totals, all `None` when the
element has no truthy `ORDERITEMSID` or the order row is missing. -/

/-- Enrichment values computed by the material/set resolvers. -/
structure OrderEnrich where
  order_number : Option String
  proddate : Option String
  order_id : Option Nat
  total : Option Int
  approved : Option Int
deriving DecidableEq, Repr

/-- Transcription of the enrichment block: `if orderitems_id:` (Python
truthiness), the `ORDERITEMS ⋈ ORDERS` lookup, and the per-order statistics
aggregate; `x if x else 0` on a SQL aggregate is `Option.getD 0`. -/
def enrichFromOrderItem (db : DB) (oiid : Option Nat) : OrderEnrich :=
  if optTruthy oiid then
    match orderitemOrderJoin db (oiid.getD 0) with
    | [] => ⟨none, none, none, none, none⟩
    | (_oi, o) :: _ =>
      let rows := orderStatsRows db o.orderid
      ⟨pyStripOpt o.orderno, o.proddate.map fmtDate, some o.orderid,
        some ((statTotal rows).getD 0), some ((statApproved rows).getD 0)⟩
  else ⟨none, none, none, none, none⟩

/-! The Approval Applier: the already-approved check and the
skip-or-update loop shared verbatim by the unit-item path
(`src/api/main.py:693`-777) and the set path (`src/api/main.py:424`-479). -/

/-- The two columns of a resolved warehouse row the applier inspects. -/
structure WHRef where
  ctwhdetailid : Nat
  isapproved : Nat
deriving DecidableEq, Repr

/-- The update loop: skip rows already approved, update the rest one
statement at a time, accumulating the updated row count. -/
def approveLoop : DB → List WHRef → Nat × DB
  | db, [] => (0, db)
  | db, w :: ws =>
    if w.isapproved == 1 then approveLoop db ws
    else
      let p := updateWH db w.ctwhdetailid
      let q := approveLoop p.2 ws
      (p.1 + q.1, q.2)

/-- Outcome of the Approval Applier on a resolved warehouse row set. -/
inductive ApplyOutcome where
  | alreadyApproved
  | updateFailed (db1 : DB)
  | updated (total_updated : Nat) (db1 : DB)
deriving DecidableEq, Repr

/-- The Approval Applier: if every row is already approved, report that
(`len(already_approved) == len(whdetail_records)`); otherwise run the update
loop and report `updateFailed` exactly when `total_updated == 0`. -/
def applierOutcome (db : DB) (records : List WHRef) : ApplyOutcome :=
  if (records.filter (fun w => w.isapproved == 1)).length == records.length then
    .alreadyApproved
  else if (approveLoop db records).1 == 0 then
    .updateFailed (approveLoop db records).2
  else
    .updated (approveLoop db records).1 (approveLoop db records).2

/-- The `" (приходовано ...)"` suffix built from a truthy approval
timestamp (`date_str` of the already-approved branches). -/
def dateApprovedStr (o : Option Nat) : String :=
  match o with
  | some d => " (приходовано " ++ fmtDateTime d ++ ")"
  | none => ""

/-! The material resolver (`process_itm_barcode`, `src/api/main.py:97`). -/

/-- Transcription of `process_itm_barcode`: look the element up by
`ITEMSDETAILID`, enrich, find its warehouse row, then either report it
already approved or update that single row. -/
def process_itm_barcode (db : DB) (barcode_value : String) :
    PyResult ApprovalResponse × DB :=
  match pyInt? barcode_value with
  | none =>
    (.ok ⟨false, "Некорректный ID материала: " ++ barcode_value,
      "Ошибка. Некорректный ID материала", none⟩, db)
  | some itemsdetailid =>
    match db.elements.filter (fun e => optEqInt e.itemsdetailid itemsdetailid) with
    | [] =>
      (.ok ⟨false, "Материал с ID " ++ toString itemsdetailid ++ " не найден",
        "Материал не найден", none⟩, db)
    | element_data :: _ =>
      let element_name := pyStripOpt element_data.rname
      let en := enrichFromOrderItem db element_data.orderitemsid
      match db.whdetail.filter (fun w => w.ctelementsid == element_data.ctelementsid) with
      | [] =>
        (.ok ⟨false, "Запись на складе для материала " ++ toString itemsdetailid ++
          " не найдена", "Материал не найден на складе", none⟩, db)
      | whdetail_data :: _ =>
        if whdetail_data.isapproved == 1 then
          let date_str := dateApprovedStr whdetail_data.dateapproved
          respondWithInfo false ("Материал уже был отмечен готовым" ++ date_str)
            "Материал уже был отмечен готовым"
            (mkProductInfo en.order_number en.proddate none
              (some (whdetail_data.itemno : Int))
              (element_data.orderitemsid.map (fun n => (n : Int))) element_name none
              element_name element_data.width element_data.height none
              (en.order_id.map (fun n => (n : Int))) en.total en.approved) db
        else
          let p := updateWH db whdetail_data.ctwhdetailid
          if p.1 == 0 then
            (.ok ⟨false, "Не удалось обновить запись в базе данных",
              "Ошибка при обновлении базы данных", none⟩, p.2)
          else
            respondWithInfo true
              ("Материал " ++ pyShowOptStr element_name ++ " успешно оприходован!")
              ("Материал " ++ pyShowOptStr element_name ++ " готов")
              (mkProductInfo en.order_number en.proddate none
                (some (whdetail_data.itemno : Int))
                (element_data.orderitemsid.map (fun n => (n : Int))) element_name none
                element_name element_data.width element_data.height none
                (en.order_id.map (fun n => (n : Int))) en.total en.approved) p.2

/-! The set resolver (`process_set_barcode`, `src/api/main.py:295`). -/

/-- Transcription of `process_set_barcode`: collect the elements carrying the
set reference, union their warehouse rows, enrich from the first element,
then run the Approval Applier over the whole row set. -/
def process_set_barcode (db : DB) (barcode_value : String) :
    PyResult ApprovalResponse × DB :=
  match pyInt? barcode_value with
  | none =>
    (.ok ⟨false, "Некорректный ID набора: " ++ barcode_value,
      "Ошибка. Некорректный ID набора", none⟩, db)
  | some itemssetid =>
    match db.elements.filter (fun e => optEqInt e.itemssetsid itemssetid) with
    | [] =>
      (.ok ⟨false, "Набор с ID " ++ toString itemssetid ++ " не найден",
        "Набор не найден", none⟩, db)
    | first_element :: rest_elements =>
      let whdetail_records := (first_element :: rest_elements).flatMap fun e =>
        db.whdetail.filter (fun w => w.ctelementsid == e.ctelementsid)
      match whdetail_records with
      | [] =>
        (.ok ⟨false, "Записи на складе для набора " ++ toString itemssetid ++
          " не найдены", "Набор не найден на складе", none⟩, db)
      | first_whdetail :: _ =>
        let element_name := pyStripOpt first_element.rname
        let en := enrichFromOrderItem db first_element.orderitemsid
        match applierOutcome db
            (whdetail_records.map fun w => ⟨w.ctwhdetailid, w.isapproved⟩) with
        | .alreadyApproved =>
          let date_str := dateApprovedStr first_whdetail.dateapproved
          respondWithInfo false ("Набор уже было отмечено готовым" ++ date_str)
            "Набор уже было отмечено готовым"
            (mkProductInfo en.order_number en.proddate none none
              (first_element.orderitemsid.map (fun n => (n : Int))) element_name
              (some (whdetail_records.length : Int)) element_name
              first_element.width first_element.height none
              (en.order_id.map (fun n => (n : Int))) en.total en.approved) db
        | .updateFailed db1 =>
          (.ok ⟨false, "Не удалось обновить записи в базе данных",
            "Ошибка при обновлении базы данных", none⟩, db1)
        | .updated total_updated db1 =>
          let message := "Успешно оприходовано " ++ toString total_updated ++
            " элемент(ов) набора" ++
            (if total_updated < whdetail_records.length then
              " (" ++ toString ((whdetail_records.length : Int) - (total_updated : Int)) ++
              " уже было приходовано ранее)"
            else "")
          respondWithInfo true message ("Набор " ++ pyShowOptStr element_name ++ " готов")
            (mkProductInfo en.order_number en.proddate none none
              (first_element.orderitemsid.map (fun n => (n : Int))) element_name
              (some (whdetail_records.length : Int)) element_name
              first_element.width first_element.height none
              (en.order_id.map (fun n => (n : Int))) en.total en.approved) db1

/-! The unit-item resolver (`process_izd_barcode`, `src/api/main.py:509`),
split into its resolution stages (validation through warehouse lookup,
lines 523-691) and the apply/monitor/compose stage (lines 693-886). -/

/-- The invalid-format failure of the unit-item path. -/
def izdInvalidFormatResp (v : String) : ApprovalResponse :=
  ⟨false, "Некорректный штрихкод изделия: " ++ v ++ ". Ожидается 9 цифр",
    "Ошибка. Некорректный штрихкод изделия", none⟩

/-- Validation and split of the 9-digit unit barcode: the first 2 digits are
the item number, the remaining 7 the glass `ORDERITEMSID`. -/
def izdValidate (v : String) : Except ApprovalResponse (Nat × Nat) :=
  if !pyIsdigit v || v.length ≠ 9 then .error (izdInvalidFormatResp v)
  else .ok (natFromDigits (pyTake v 2), natFromDigits (pyDrop v 2))

/-- Lookup of the glass `ORDERITEMS` row (joined with its order). -/
def izdFindGlass (db : DB) (glass_orderitems_id : Nat) :
    Except ApprovalResponse (OrderItem × Order) :=
  match orderitemOrderJoin db glass_orderitems_id with
  | [] =>
    .error ⟨false, "Стеклопакет с ID " ++ toString glass_orderitems_id ++
      " не найден в базе данных", "Стеклопакет не найден в базе данных", none⟩
  | g :: _ => .ok g

/-- Parse of the glass display name `"<order> / <construction> / ..."`.
Since `'/' in glass_name` is required first, Python's `split('/')` always
yields at least two parts there, so the `len(parts) < 2` arm of the source is
kept but never taken. -/
def izdParseName (glass_oi : OrderItem) : Except ApprovalResponse (String × String) :=
  let glass_name := pyStripOr glass_oi.name ""
  if !pyTruthy glass_name || !glass_name.data.contains '/' then
    .error ⟨false, "Некорректный формат имени стеклопакета: " ++ glass_name,
      "Ошибка. Некорректный формат имени стеклопакета", none⟩
  else
    match pySplit glass_name '/' with
    | p0 :: p1 :: _ => .ok (pyStrip p0, pyStrip p1)
    | _ =>
      .error ⟨false, "Не удалось распарсить имя стеклопакета: " ++ glass_name,
        "Ошибка парсинга имени стеклопакета", none⟩

/-- Lookup of the construction's `ORDERITEMS` row by order number and
construction name. -/
def izdFindProduct (db : DB) (order_name construction_number : String) :
    Except ApprovalResponse (OrderItem × Order) :=
  match productJoin db order_name construction_number with
  | [] =>
    .error ⟨false, "Изделие " ++ construction_number ++ " заказа №" ++ order_name ++
      " не найдено",
      "Изделие " ++ construction_number ++ " заказа №" ++ order_name ++ " не найдено",
      none⟩
  | pr :: _ => .ok pr

/-- Stable-enough insertion step for `ORDER BY MODELNO` (the SQL leaves the
relative order of equal keys unspecified; this sort is a fixed choice). -/
def insertByModelNo (m : PModel) : List PModel → List PModel
  | [] => [m]
  | x :: xs => if m.modelno < x.modelno then m :: x :: xs else x :: insertByModelNo m xs

/-- Sorting of the models of a construction by `MODELNO`. -/
def sortByModelNo : List PModel → List PModel
  | [] => []
  | m :: ms => insertByModelNo m (sortByModelNo ms)

/-- Query of all `MODELS` of the construction, `ORDER BY MODELNO`. -/
def izdFindModels (db : DB) (orderitems_id : Nat)
    (construction_number order_number : String) :
    Except ApprovalResponse (List PModel) :=
  match sortByModelNo (db.models.filter (fun m => m.orderitemsid == orderitems_id)) with
  | [] =>
    .error ⟨false, "Модели для изделия " ++ construction_number ++ " заказа №" ++
      order_number ++ " не найдены",
      "Модели для изделия " ++ construction_number ++ " заказа №" ++ order_number ++
      " не найдены", none⟩
  | m :: ms => .ok (m :: ms)

/-- The joined row selected by the per-model warehouse query of the
unit-item path. -/
structure IzdWHRow where
  ctwhdetailid : Nat
  ctelementsid : Nat
  itemno : Nat
  isapproved : Nat
  userapproved : Option Nat
  dateapproved : Option Nat
  element_name : Option String
  width : Option Int
  height : Option Int
  modelid : Nat
deriving DecidableEq, Repr

/-- Query `CT_WHDETAIL w INNER JOIN CT_ELEMENTS e ON w.CTELEMENTSID =
e.CTELEMENTSID WHERE e.MODELID = ? AND w.ITEMNO = ? AND e.CTTYPEELEMSID = 2`. -/
def izdWhJoin (db : DB) (model_id item_number : Nat) : List IzdWHRow :=
  db.whdetail.flatMap fun w =>
    if w.itemno == item_number then
      (db.elements.filter (fun e => e.ctelementsid == w.ctelementsid &&
          e.modelid == model_id && e.cttypeelemsid == 2)).map fun e =>
        ⟨w.ctwhdetailid, w.ctelementsid, w.itemno, w.isapproved, w.userapproved,
          w.dateapproved, e.rname, e.width, e.height, e.modelid⟩
    else []

/-- Accumulation of the warehouse rows over all models, failing when the
union is empty. -/
def izdFindRecords (db : DB) (models : List PModel) (item_number : Nat)
    (construction_number order_number : String) :
    Except ApprovalResponse (List IzdWHRow) :=
  match models.flatMap (fun m => izdWhJoin db m.modelid item_number) with
  | [] =>
    .error ⟨false, "Изделие " ++ construction_number ++ " заказа №" ++ order_number ++
      " не найдено на складе",
      "Изделие " ++ construction_number ++ " заказа №" ++ order_number ++
      " не найдено на складе", none⟩
  | r :: rs => .ok (r :: rs)

/-- Everything the resolution stages of the unit-item path establish before
the Approval Applier runs. -/
structure IzdResolved where
  item_number : Nat
  glass_orderitems_id : Nat
  order_name : String
  construction_number : String
  orderitems_id : Nat
  order_number : String
  orderitem_qty : Int
  order_id : Nat
  proddate : Option String
  models_count : Nat
  whdetail_records : List IzdWHRow
deriving DecidableEq, Repr

/-- The resolution pipeline of `process_izd_barcode`
(`src/api/main.py:523`-691): validation, glass lookup, name parse, product
lookup, quantity validation, model fetch, warehouse row accumulation. -/
def resolveIzd (db : DB) (v : String) : Except ApprovalResponse IzdResolved :=
  match izdValidate v with
  | .error r => .error r
  | .ok (item_number, glass_orderitems_id) =>
    match izdFindGlass db glass_orderitems_id with
    | .error r => .error r
    | .ok (glass_oi, _glass_o) =>
      match izdParseName glass_oi with
      | .error r => .error r
      | .ok (order_name, construction_number) =>
        match izdFindProduct db order_name construction_number with
        | .error r => .error r
        | .ok (product_oi, product_o) =>
          let order_number := pyStripOr product_o.orderno "?"
          let proddate := product_o.proddate.map fmtDate
          if (item_number : Int) > product_oi.qty then
            .error ⟨false, "Номер изделия " ++ toString item_number ++
              " превышает количество " ++ toString product_oi.qty,
              "Ошибка. Номер изделия " ++ toString item_number ++
              " превышает количество " ++ toString product_oi.qty, none⟩
          else
            match izdFindModels db product_oi.orderitemsid construction_number
                order_number with
            | .error r => .error r
            | .ok models_result =>
              match izdFindRecords db models_result item_number construction_number
                  order_number with
              | .error r => .error r
              | .ok records =>
                .ok ⟨item_number, glass_orderitems_id, order_name,
                  construction_number, product_oi.orderitemsid, order_number,
                  product_oi.qty, product_o.orderid, proddate,
                  models_result.length, records⟩

/-- The per-order statistics of the unit-item path after approval
(`src/api/main.py:784`-802): total, approved, and not-approved count, with
the source's `x if x else 0` coercions. -/
def izdOrderStatsOn (db : DB) (oid : Nat) : Int × Int × Nat :=
  let rows := orderStatsRows db oid
  ((statTotal rows).getD 0, (statApproved rows).getD 0, statNotApprovedCount rows)

/-- Comment text of the automatic Ready transition record. -/
def autoReadyComment : String :=
  "Автоматическая установка статуса после штрихкодирования"

/-- The Order Completion Monitor (`src/api/main.py:804`-850): recompute the
order statistics, and if everything is approved, the order has items and its
current state is not already 4 ("Ready"), insert a `ORDERSTATESREG` record at
`MAX(stateposit)+1` with state 4 and actor 8, then set the order's state
field to 4. The source computes the statistics once (line 798) and reuses
them here; recomputing the same pure query on the same state is equivalent. -/
def orderCompletionMonitor (db : DB) (oid : Nat) : DB :=
  if (statNotApprovedCount (orderStatsRows db oid) == 0) &&
      decide (0 < (statTotal (orderStatsRows db oid)).getD 0) then
    if currentOrderState db (oid : Int) != some 4 then
      updateOrderState
        (insertStateReg db (oid : Int) 4 ((maxStatePosit db (oid : Int)).getD 0 + 1)
          autoReadyComment) (oid : Int) 4
    else db
  else db

/-- Transcription of `process_izd_barcode`: resolve, then run the Approval
Applier, the Order Completion Monitor and the response composition. The
`[]` record case is unreachable (`resolveIzd` only returns a non-empty set);
Python would raise `IndexError` at `whdetail_records[0]` there. -/
def process_izd_barcode (db : DB) (barcode_value : String) :
    PyResult ApprovalResponse × DB :=
  match resolveIzd db barcode_value with
  | .error resp => (.ok resp, db)
  | .ok r =>
    match r.whdetail_records with
    | [] => (.exn "IndexError", db)
    | whdetail_data :: _ =>
      let element_name := pyStripOpt whdetail_data.element_name
      let width := whdetail_data.width
      let height := whdetail_data.height
      match applierOutcome db
          (r.whdetail_records.map fun w => ⟨w.ctwhdetailid, w.isapproved⟩) with
      | .alreadyApproved =>
        let date_str := dateApprovedStr whdetail_data.dateapproved
        let total_rows := orderStatsRows db r.order_id
        let approved_rows := total_rows.filter (fun p => p.2.isapproved == 1)
        let total_items_in_order := (statTotal total_rows).getD 0
        let approved_items_in_order := (statTotal approved_rows).getD 0
        respondWithInfo false ("Изделие уже было отмечено готовым" ++ date_str)
          "Изделие уже было отмечено готовым"
          (mkProductInfo (some r.order_number) r.proddate (some r.construction_number)
            (some (r.item_number : Int)) (some (r.orderitems_id : Int))
            (some r.construction_number) (some r.orderitem_qty) element_name width
            height (some (r.glass_orderitems_id : Int)) (some (r.order_id : Int))
            (some total_items_in_order) (some approved_items_in_order)) db
      | .updateFailed db1 =>
        (.ok ⟨false, "Не удалось обновить записи в базе данных",
          "Ошибка при обновлении базы данных", none⟩, db1)
      | .updated total_updated db1 =>
        let s := izdOrderStatsOn db1 r.order_id
        let total_items_in_order := s.1
        let approved_items_in_order := s.2.1
        let all_approved : Bool := s.2.2 == 0
        let has_items : Bool := decide (0 < total_items_in_order)
        let db2 := orderCompletionMonitor db1 r.order_id
        let message0 := "Успешно оприходовано " ++ toString total_updated ++
          " изделие(й) из " ++ toString r.models_count ++ " модели(ей)" ++
          (if total_updated < r.whdetail_records.length then
            " (" ++ toString ((r.whdetail_records.length : Int) - (total_updated : Int)) ++
            " уже было приходовано ранее)"
          else "")
        let message :=
          if all_approved && has_items then
            message0 ++ ". ЗАКАЗ " ++ r.order_number ++ " ПОЛНОСТЬЮ ГОТОВ!"
          else message0
        let voice :=
          if all_approved && has_items then
            "Заказ " ++ r.order_number ++ " полностью готов!"
          else
            "Изделие " ++ r.construction_number ++ " заказа " ++ r.order_number ++
            " готово"
        respondWithInfo true message voice
          (mkProductInfo (some r.order_number) r.proddate (some r.construction_number)
            (some (r.item_number : Int)) (some (r.orderitems_id : Int))
            (some r.construction_number) (some r.orderitem_qty) element_name width
            height (some (r.glass_orderitems_id : Int)) (some (r.order_id : Int))
            (some total_items_in_order) (some approved_items_in_order)) db2

/-! The order resolver (`process_order_barcode`, `src/api/main.py:889`). -/

/-- Query `ORDERS o LEFT JOIN ORDERSTATES os ON os.ORDERSTATEID =
o.ORDERSTATEID WHERE o.ORDERID = ?`, selecting the state name. -/
def orderStateJoin (db : DB) (oid : Int) : List (Order × Option String) :=
  (db.orders.filter (fun o => (o.orderid : Int) == oid)).flatMap fun o =>
    match db.orderstates.filter (fun s => o.orderstateid == some s.orderstateid) with
    | [] => [(o, none)]
    | s :: ss => (s :: ss).map fun t => (o, t.name)

/-- Comment text of the shipment transition record. -/
def shipComment : String :=
  "Автоматическая установка статуса \"Отгружен\" после сканирования штрихкода заказа"

/-- Transcription of `process_order_barcode`: an order not in state 4
("Ready") is refused with its current state name and nothing is written;
otherwise a `ORDERSTATESREG` record with state 5 ("Shipped") is inserted at
`MAX(stateposit)+1` and the order's state is set to 5. The success
`ApprovalResponse` constructs a `ProductInfo` with `None` for its required
fields, so pydantic raises `ValidationError`; the handler's own
`except Exception` turns that into the generic shipment-failure response —
after both writes were already committed. -/
def process_order_barcode (db : DB) (barcode : String) :
    PyResult ApprovalResponse × DB :=
  match pyInt? barcode with
  | none =>
    (.ok ⟨false, "Некорректный штрихкод заказа: " ++ barcode,
      "Ошибка. Некорректный штрихкод заказа", none⟩, db)
  | some order_id =>
    match orderStateJoin db order_id with
    | [] =>
      (.ok ⟨false, "Заказ с ID " ++ toString order_id ++ " не найден",
        "Заказ не найден", none⟩, db)
    | (o, state_name_raw) :: _ =>
      let order_number := pyStripOr o.orderno "?"
      let current_state_name := pyStripOr state_name_raw "Неизвестно"
      if o.orderstateid != some 4 then
        (.ok ⟨false, "Заказ " ++ order_number ++ " в статусе '" ++ current_state_name ++
          "'. Можно отгружать только заказы со статусом 'Готов'",
          "Ошибка. Заказ " ++ order_number ++ " не готов к отгрузке", none⟩, db)
      else
        let next_posit := (maxStatePosit db order_id).getD 0 + 1
        let db1 := insertStateReg db order_id 5 next_posit shipComment
        let db2 := updateOrderState db1 order_id 5
        match mkProductInfo (some order_number) none none none none none none none
            none none none (some order_id) none none with
        | some pi =>
          (.ok ⟨true, "Заказ " ++ order_number ++ " успешно отгружен!",
            "Заказ " ++ order_number ++ " отгружен", some pi⟩, db2)
        | none =>
          (.ok ⟨false, "Ошибка при отгрузке заказа: " ++ validationErrText,
            "Ошибка при отгрузке заказа", none⟩, db2)

/-! The dispatcher (`process_barcode`, `src/api/main.py:1037`). -/

/-- Transcription of the `process_barcode` endpoint: strip, classify,
dispatch by kind, and catch a propagated `ValidationError` (a `ValueError`)
in the endpoint's first `except` branch. -/
def process_barcode (db : DB) (raw : String) : ApprovalResponse × DB :=
  let barcode := pyStrip raw
  let info := parse_barcode barcode
  let res :=
    match info.type with
    | .IZD => process_izd_barcode db info.value
    | .LEGACY_IZD => process_izd_barcode db info.value
    | .ORD => process_order_barcode db info.value
    | .LEGACY_ORD => process_order_barcode db info.value
    | .ITM => process_itm_barcode db info.value
    | .SET => process_set_barcode db info.value
    | .UNKNOWN =>
      (.ok ⟨false, "Неизвестный формат штрихкода: " ++ barcode,
        "Ошибка. Неизвестный формат штрихкода", none⟩, db)
  match res with
  | (.ok resp, db1) => (resp, db1)
  | (.exn msg, db1) =>
    (⟨false, "Ошибка обработки штрихкода: " ++ msg,
      "Ошибка обработки штрихкода", none⟩, db1)

/-! Concrete database states, used to evaluate the theorems below on
explicit inputs. -/

/-- The empty database. -/
def emptyDB : DB :=
  ⟨[], [], [], [], [], [], [], 0, 0⟩

/-- A database with one order ("19686", state 2) holding one construction
"01" of quantity 1, one model, one trackable element and one unapproved
warehouse row, plus the glass order-item `1234567` whose name cross-references
the construction. -/
def sampleDB : DB where
  orders := [⟨1, some "19686", some 7, some 2, none⟩]
  orderitems := [⟨1234567, some "19686 / 01 / C-1", 1, 1⟩, ⟨10, some "01", 1, 1⟩]
  models := [⟨100, 1, 10⟩]
  elements := [⟨500, some "elem", some 100, some 200, 100, some 10, none, none, 2⟩]
  whdetail := [⟨900, 500, 1, 0, none, none, 1⟩]
  orderstatesreg := [⟨1, 1, 2, 8, 0, 1, "x"⟩]
  orderstates := [⟨4, some "Готов"⟩, ⟨2, some "В работе"⟩]
  genOrderStatesReg := 50
  now := 1000

/-- `sampleDB` with the warehouse row already approved and the order Ready. -/
def sampleDBReady : DB :=
  { sampleDB with
      orders := [⟨1, some "19686", some 7, some 4, none⟩],
      whdetail := [⟨900, 500, 1, 1, none, some 555, 1⟩] }

/-! Basic facts about the primitives. -/

/-- The state returned by `respondWithInfo` is the one passed in, whether or
not validation succeeds. -/
lemma respondWithInfo_snd (s : Bool) (m vo : String) (i : Option ProductInfo)
    (db : DB) : (respondWithInfo s m vo i db).2 = db := by
  cases i <;> rfl

/-- C10. For every barcode classified as Order, Material, or Set whose value
is not a decimal integer string, the corresponding resolver returns a
`success=false` invalid-ID response before issuing any database query or
update, so the database state is unchanged. -/
theorem invalid_id_value_rejected_without_db_access (db : DB) (v : String)
    (h : pyInt? v = none) :
    process_itm_barcode db v =
      (.ok ⟨false, "Некорректный ID материала: " ++ v,
        "Ошибка. Некорректный ID материала", none⟩, db) ∧
    process_set_barcode db v =
      (.ok ⟨false, "Некорректный ID набора: " ++ v,
        "Ошибка. Некорректный ID набора", none⟩, db) ∧
    process_order_barcode db v =
      (.ok ⟨false, "Некорректный штрихкод заказа: " ++ v,
        "Ошибка. Некорректный штрихкод заказа", none⟩, db) := by
  refine ⟨?_, ?_, ?_⟩ <;>
    simp only [process_itm_barcode, process_set_barcode, process_order_barcode, h]

/-- Witness for C10 at the value "T-ABC" routes to (`"ABC"`): the hypothesis
holds and all three resolvers return the fixed invalid-ID failure on a
non-trivial state. -/
theorem invalid_id_value_rejected_witness :
    pyInt? "ABC" = none ∧
    (process_itm_barcode sampleDB "ABC" =
      (.ok ⟨false, "Некорректный ID материала: " ++ "ABC",
        "Ошибка. Некорректный ID материала", none⟩, sampleDB) ∧
    process_set_barcode sampleDB "ABC" =
      (.ok ⟨false, "Некорректный ID набора: " ++ "ABC",
        "Ошибка. Некорректный ID набора", none⟩, sampleDB) ∧
    process_order_barcode sampleDB "ABC" =
      (.ok ⟨false, "Некорректный штрихкод заказа: " ++ "ABC",
        "Ошибка. Некорректный штрихкод заказа", none⟩, sampleDB)) :=
  ⟨by decide, invalid_id_value_rejected_without_db_access sampleDB "ABC" (by decide)⟩

/-- C5. The barcodes "D-123456789", "IZD-123456789" and the legacy
"123456789" all dispatch to the unit-item resolver with the value
"123456789", so on every fixed database state they produce identical
responses and identical final states. -/
theorem classification_roundtrip_same_outcome (db : DB) :
    process_barcode db "D-123456789" = process_barcode db "123456789" ∧
    process_barcode db "IZD-123456789" = process_barcode db "123456789" ∧
    process_barcode db "123456789" =
      (match process_izd_barcode db "123456789" with
        | (.ok resp, db1) => (resp, db1)
        | (.exn msg, db1) =>
          (⟨false, "Ошибка обработки штрихкода: " ++ msg,
            "Ошибка обработки штрихкода", none⟩, db1)) := by
  refine ⟨?_, ?_, ?_⟩ <;> rfl

/-! The classifier rules as the specification words them (§4.1): prefix
table, digit-length rules, Unknown fallback. -/

/-- The specification's prefix table: `D`→Unit, `ORD`→Order, `T`→Material,
`S`→Set, and the long-form legacy prefixes `IZD`, `ITM`, `SET`. -/
def prefixKindMap (p : String) : Option BKind :=
  if p = "D" then some .IZD
  else if p = "ORD" then some .ORD
  else if p = "T" then some .ITM
  else if p = "S" then some .SET
  else if p = "IZD" then some .IZD
  else if p = "ITM" then some .ITM
  else if p = "SET" then some .SET
  else none

/-- The specification's digit rules: an all-digit string of length exactly 9
is a legacy unit, any other all-digit string a legacy order, anything else
Unknown. -/
def digitRules (u : String) : ParsedBarcode :=
  if pyIsdigit u then
    if u.length = 9 then ⟨.LEGACY_IZD, u⟩ else ⟨.LEGACY_ORD, u⟩
  else ⟨.UNKNOWN, u⟩

/-- The specification's ordered classification rules over the normalized
(trimmed, upper-cased) string: split on the first `-` and look the trimmed
prefix up in the table; an unrecognized prefix falls through to the digit
rules applied to the whole string, as does a string with no `-`. -/
def specClassify (u : String) : ParsedBarcode :=
  if u.data.contains '-' then
    match prefixKindMap (pyStrip (pySplit1 u '-').1) with
    | some k => ⟨k, pyStrip (pySplit1 u '-').2⟩
    | none => digitRules u
  else digitRules u

/-- C4. The classifier is a total function following the specification's
ordered rules on the normalized input, and the Unknown classification is
routed by the dispatcher to the fixed format-error failure with the database
untouched. -/
theorem classifier_follows_ordered_rules :
    (∀ s : String, parse_barcode s = specClassify (pyUpper (pyStrip s))) ∧
    (∀ (db : DB) (raw : String),
      (parse_barcode (pyStrip raw)).type = BKind.UNKNOWN →
      process_barcode db raw =
        (⟨false, "Неизвестный формат штрихкода: " ++ pyStrip raw,
          "Ошибка. Неизвестный формат штрихкода", none⟩, db)) := by
  constructor
  · intro s
    show (if (pyUpper (pyStrip s)).data.contains '-' then _ else _) = _
    rw [specClassify]
    cases hc : (pyUpper (pyStrip s)).data.contains '-' with
    | false => simp only [hc, Bool.false_eq_true, if_false, digitRules]
    | true =>
      simp only [hc, if_true]
      rw [prefixKindMap]
      split_ifs <;> simp only [digitRules] <;> split_ifs <;> rfl
  · intro db raw h
    rcases hp : parse_barcode (pyStrip raw) with ⟨t, v⟩
    rw [hp] at h
    simp only at h
    subst h
    simp only [process_barcode, hp]

/-- C6 counterexample. The claimed equivalence for the `UpdateFailed`
outcome is false at an explicit input of the Approval Applier: with a state
holding no warehouse rows and the record set `[{id 1, approved}, {id 2,
unapproved}]`, the guard `total_updated == 0` fires (the applier returns
`UpdateFailed`) although one of the rows had been skipped as already
approved, which the claim's condition excludes. -/
theorem applier_updatefailed_claim_counterexample :
    ¬ (applierOutcome emptyDB [⟨1, 1⟩, ⟨2, 0⟩] =
          .updateFailed (approveLoop emptyDB [⟨1, 1⟩, ⟨2, 0⟩]).2 ↔
        ([(⟨1, 1⟩ : WHRef), ⟨2, 0⟩] ≠ [] ∧
          (approveLoop emptyDB [(⟨1, 1⟩ : WHRef), ⟨2, 0⟩]).1 = 0 ∧
          ∀ w ∈ [(⟨1, 1⟩ : WHRef), ⟨2, 0⟩], ¬ w.isapproved = 1)) := by
  decide

/-- C6 amended. In the Approval Applier (the phase shared by the unit-item
and set paths), `UpdateFailed` is returned exactly when the resolved row set
was non-empty, at least one of its rows was not already approved, and the
update phase newly updated zero rows. -/
theorem applier_updatefailed_iff (db : DB) (records : List WHRef) :
    (∃ db1, applierOutcome db records = .updateFailed db1) ↔
      (records ≠ [] ∧ (∃ w ∈ records, w.isapproved ≠ 1) ∧
        (approveLoop db records).1 = 0) := by
  unfold applierOutcome
  simp only [beq_iff_eq]
  by_cases hall : (records.filter (fun w => w.isapproved == 1)).length = records.length
  · rw [if_pos hall]
    rw [List.filter_length_eq_length] at hall
    constructor
    · rintro ⟨db1, h⟩
      cases h
    · rintro ⟨_, ⟨w, hw, hwa⟩, _⟩
      exact absurd (by simpa using hall w hw) hwa
  · rw [if_neg hall]
    have hex : ∃ w ∈ records, w.isapproved ≠ 1 := by
      by_contra hno
      push_neg at hno
      apply hall
      rw [List.filter_length_eq_length]
      intro a ha
      simpa using hno a ha
    have hne : records ≠ [] := by
      intro h
      subst h
      exact hall rfl
    by_cases hz : (approveLoop db records).1 = 0
    · rw [if_pos hz]
      exact ⟨fun _ => ⟨hne, hex, hz⟩, fun _ => ⟨_, rfl⟩⟩
    · rw [if_neg hz]
      constructor
      · rintro ⟨db1, h⟩
        cases h
      · rintro ⟨_, _, h0⟩
        exact absurd h0 hz

/-- Witness for C6's amended equivalence: on `sampleDB` and its unapproved
row, the applier does not fail — the right side is refuted by the updated
count being 1 — and, forward, the update on an absent row does fail. -/
theorem applier_updatefailed_iff_witness :
    (∃ db1, applierOutcome emptyDB [⟨2, 0⟩] = .updateFailed db1) ∧
    ¬ (∃ db1, applierOutcome sampleDB [⟨900, 0⟩] = .updateFailed db1) := by
  constructor
  · exact (applier_updatefailed_iff emptyDB [⟨2, 0⟩]).mpr (by decide)
  · intro h
    have := (applier_updatefailed_iff sampleDB [⟨900, 0⟩]).mp h
    revert this
    decide

/-- C7. Behavior of the order (shipment) scan on an existing order.
When the order's state is not 4 ("Ready") the resolver fails with a message
naming the current state and the database is untouched. When the state is 4,
the `ORDERSTATESREG` record (state 5, `MAX(stateposit)+1`) is inserted and
the order's state set to 5 — but the response is the failure-shaped
`"Ошибка при отгрузке заказа"` one, not the success response the source
builds: its `ProductInfo(construction_number=None, ...)` fails pydantic
validation and the raised `ValidationError` lands in the handler's
`except Exception` branch after the writes were committed. -/
theorem order_scan_state_gate_behavior (db : DB) (v : String) (oid : Int)
    (o : Order) (sn : Option String) (rest : List (Order × Option String))
    (hv : pyInt? v = some oid) (hj : orderStateJoin db oid = (o, sn) :: rest) :
    (o.orderstateid ≠ some 4 →
      process_order_barcode db v =
        (.ok ⟨false, "Заказ " ++ pyStripOr o.orderno "?" ++ " в статусе '" ++
          pyStripOr sn "Неизвестно" ++
          "'. Можно отгружать только заказы со статусом 'Готов'",
          "Ошибка. Заказ " ++ pyStripOr o.orderno "?" ++ " не готов к отгрузке",
          none⟩, db)) ∧
    (o.orderstateid = some 4 →
      process_order_barcode db v =
        (.ok ⟨false, "Ошибка при отгрузке заказа: " ++ validationErrText,
          "Ошибка при отгрузке заказа", none⟩,
          updateOrderState
            (insertStateReg db oid 5 ((maxStatePosit db oid).getD 0 + 1) shipComment)
            oid 5)) := by
  unfold process_order_barcode
  simp only [hv, hj]
  constructor
  · intro h
    rw [if_pos (by simpa using h)]
  · intro h
    rw [if_neg (by simp [h])]
    rfl

/-- Witness for C7 on concrete states: a not-Ready order is refused with its
state name and nothing changes, and a Ready order is shipped in the database
while the response reports the shipment error. -/
theorem order_scan_state_gate_witness :
    process_order_barcode sampleDB "1" =
      (.ok ⟨false, "Заказ " ++ pyStripOr (some "19686") "?" ++ " в статусе '" ++
        pyStripOr (some "В работе") "Неизвестно" ++
        "'. Можно отгружать только заказы со статусом 'Готов'",
        "Ошибка. Заказ " ++ pyStripOr (some "19686") "?" ++ " не готов к отгрузке",
        none⟩, sampleDB) ∧
    process_order_barcode sampleDBReady "1" =
      (.ok ⟨false, "Ошибка при отгрузке заказа: " ++ validationErrText,
        "Ошибка при отгрузке заказа", none⟩,
        updateOrderState
          (insertStateReg sampleDBReady 1 5 ((maxStatePosit sampleDBReady 1).getD 0 + 1)
            shipComment) 1 5) :=
  ⟨(order_scan_state_gate_behavior sampleDB "1" 1 ⟨1, some "19686", some 7, some 2, none⟩
      (some "В работе") [] (by decide) (by decide)).1 (by decide),
    (order_scan_state_gate_behavior sampleDBReady "1" 1
      ⟨1, some "19686", some 7, some 4, none⟩ (some "Готов") [] (by decide)
      (by decide)).2 rfl⟩

/-! Frame and evolution lemmas: every database mutation of the four
resolvers is an approval of warehouse rows, an insertion into the transition
log, or a forward order-state write. -/

/-- The row transformation of the approval `UPDATE`. -/
def setApprovedRow (now : Nat) (w : WHDetail) : WHDetail :=
  { w with isapproved := 1, dateapproved := some now }

/-- Equality of the two states on every table except `CT_WHDETAIL`. -/
@[reducible] def eqExceptWhdetail (db db' : DB) : Prop :=
  db'.orders = db.orders ∧ db'.orderitems = db.orderitems ∧
  db'.models = db.models ∧ db'.elements = db.elements ∧
  db'.orderstatesreg = db.orderstatesreg ∧ db'.orderstates = db.orderstates ∧
  db'.genOrderStatesReg = db.genOrderStatesReg ∧ db'.now = db.now

lemma eqExceptWhdetail_refl (db : DB) : eqExceptWhdetail db db :=
  ⟨rfl, rfl, rfl, rfl, rfl, rfl, rfl, rfl⟩

lemma eqExceptWhdetail_trans {a b c : DB} (h1 : eqExceptWhdetail a b)
    (h2 : eqExceptWhdetail b c) : eqExceptWhdetail a c :=
  ⟨h2.1.trans h1.1, h2.2.1.trans h1.2.1, h2.2.2.1.trans h1.2.2.1,
    h2.2.2.2.1.trans h1.2.2.2.1, h2.2.2.2.2.1.trans h1.2.2.2.2.1,
    h2.2.2.2.2.2.1.trans h1.2.2.2.2.2.1, h2.2.2.2.2.2.2.1.trans h1.2.2.2.2.2.2.1,
    h2.2.2.2.2.2.2.2.trans h1.2.2.2.2.2.2.2⟩

/-- Positionwise: each warehouse row is unchanged or freshly approved. -/
@[reducible] def approvalOnly (now : Nat) (l l' : List WHDetail) : Prop :=
  l'.length = l.length ∧
  ∀ (i : Nat) (w w' : WHDetail), l[i]? = some w → l'[i]? = some w' →
    (w' = w ∨ w' = setApprovedRow now w)

lemma approvalOnly_refl (now : Nat) (l : List WHDetail) : approvalOnly now l l := by
  refine ⟨rfl, fun i w w' h h' => ?_⟩
  rw [h] at h'
  exact Or.inl (Option.some_inj.mp h').symm

lemma setApprovedRow_idem (now : Nat) (w : WHDetail) :
    setApprovedRow now (setApprovedRow now w) = setApprovedRow now w := rfl

lemma approvalOnly_trans {now : Nat} {a b c : List WHDetail}
    (h1 : approvalOnly now a b) (h2 : approvalOnly now b c) :
    approvalOnly now a c := by
  refine ⟨h2.1.trans h1.1, fun i w w'' hw hw'' => ?_⟩
  have hib : i < b.length := by
    rw [h1.1]
    exact (List.getElem?_eq_some.mp hw).1
  have hwb : b[i]? = some b[i] := List.getElem?_eq_getElem hib
  rcases h1.2 i w b[i] hw hwb with h | h <;>
    rcases h2.2 i b[i] w'' hwb hw'' with h' | h' <;>
      rw [h] at h' <;> simp [h', setApprovedRow_idem]

lemma updateWH_eqExcept (db : DB) (id : Nat) :
    eqExceptWhdetail db (updateWH db id).2 :=
  ⟨rfl, rfl, rfl, rfl, rfl, rfl, rfl, rfl⟩

lemma updateWH_whdetail_get (db : DB) (id : Nat) (i : Nat) :
    (updateWH db id).2.whdetail[i]? =
      (db.whdetail[i]?).map
        (fun w => if w.ctwhdetailid == id then setApprovedRow db.now w else w) := by
  simp [updateWH, List.getElem?_map, setApprovedRow]

lemma updateWH_approvalOnly (db : DB) (id : Nat) :
    approvalOnly db.now db.whdetail (updateWH db id).2.whdetail := by
  refine ⟨by simp [updateWH], fun i w w' hw hw' => ?_⟩
  rw [updateWH_whdetail_get, hw] at hw'
  simp only [Option.map_some'] at hw'
  by_cases hc : (w.ctwhdetailid == id) = true
  · rw [if_pos hc] at hw'
    exact Or.inr (Option.some_inj.mp hw').symm
  · rw [if_neg hc] at hw'
    exact Or.inl (Option.some_inj.mp hw').symm

lemma approveLoop_eqExcept (refs : List WHRef) :
    ∀ db : DB, eqExceptWhdetail db (approveLoop db refs).2 := by
  induction refs with
  | nil => intro db; exact eqExceptWhdetail_refl db
  | cons x xs ih =>
    intro db
    show eqExceptWhdetail db (approveLoop db (x :: xs)).2
    rw [approveLoop]
    by_cases hx : (x.isapproved == 1) = true
    · rw [if_pos hx]
      exact ih db
    · rw [if_neg hx]
      exact eqExceptWhdetail_trans (updateWH_eqExcept db x.ctwhdetailid)
        (ih (updateWH db x.ctwhdetailid).2)

lemma approveLoop_approvalOnly (refs : List WHRef) :
    ∀ db : DB, approvalOnly db.now db.whdetail (approveLoop db refs).2.whdetail := by
  induction refs with
  | nil => intro db; exact approvalOnly_refl db.now db.whdetail
  | cons x xs ih =>
    intro db
    rw [approveLoop]
    by_cases hx : (x.isapproved == 1) = true
    · rw [if_pos hx]
      exact ih db
    · rw [if_neg hx]
      have h1 := updateWH_approvalOnly db x.ctwhdetailid
      have h2 := ih (updateWH db x.ctwhdetailid).2
      rw [(updateWH_eqExcept db x.ctwhdetailid).2.2.2.2.2.2.2] at h2
      exact approvalOnly_trans h1 h2

/-- A row freshly approved stays approved through any later approval-only
evolution. -/
lemma approvalOnly_keeps_approved {now : Nat} {a b : List WHDetail}
    (h : approvalOnly now a b) (i : Nat) (w w' : WHDetail)
    (hw : a[i]? = some w) (hw' : b[i]? = some w') (ha : w.isapproved = 1) :
    w'.isapproved = 1 := by
  rcases h.2 i w w' hw hw' with h' | h' <;> rw [h'] <;> first | exact ha | rfl

/-- After the update loop, the database row at any index whose id is carried
by some unapproved record of the loop's input is approved. -/
lemma approveLoop_sets (refs : List WHRef) :
    ∀ (db : DB) (i : Nat) (w : WHDetail), db.whdetail[i]? = some w →
      ∀ ref ∈ refs, ref.ctwhdetailid = w.ctwhdetailid → ref.isapproved ≠ 1 →
      ∃ w', (approveLoop db refs).2.whdetail[i]? = some w' ∧ w'.isapproved = 1 := by
  induction refs with
  | nil =>
    intro db i w _ ref h
    cases h
  | cons x xs ih =>
    intro db i w hw ref hmem hid hna
    rw [approveLoop]
    rcases List.mem_cons.mp hmem with hrx | hrxs
    · subst hrx
      rw [if_neg (by simpa using hna)]
      have hw1 : (updateWH db ref.ctwhdetailid).2.whdetail[i]? =
          some (setApprovedRow db.now w) := by
        rw [updateWH_whdetail_get, hw]
        simp [hid.symm]
      have hmono := approveLoop_approvalOnly xs (updateWH db ref.ctwhdetailid).2
      have hlen : i < (approveLoop (updateWH db ref.ctwhdetailid).2 xs).2.whdetail.length := by
        rw [hmono.1]
        exact (List.getElem?_eq_some.mp hw1).1
      refine ⟨_, List.getElem?_eq_getElem hlen, ?_⟩
      exact approvalOnly_keeps_approved hmono i (setApprovedRow db.now w) _ hw1
        (List.getElem?_eq_getElem hlen) rfl
    · by_cases hx : (x.isapproved == 1) = true
      · rw [if_pos hx]
        exact ih db i w hw ref hrxs hid hna
      · rw [if_neg hx]
        have hw2 := updateWH_whdetail_get db x.ctwhdetailid i
        rw [hw] at hw2
        simp only [Option.map_some'] at hw2
        by_cases hc : (w.ctwhdetailid == x.ctwhdetailid) = true
        · rw [if_pos hc] at hw2
          exact ih _ i (setApprovedRow db.now w) hw2 ref hrxs
            (by simpa [setApprovedRow] using hid) hna
        · rw [if_neg hc] at hw2
          exact ih _ i w hw2 ref hrxs hid hna

/-! Order-state evolution. -/

/-- Positionwise: each order row is unchanged or moved to the given state. -/
@[reducible] def ordersSetOnly (st : Nat) (l l' : List Order) : Prop :=
  l'.length = l.length ∧
  ∀ (i : Nat) (o o' : Order), l[i]? = some o → l'[i]? = some o' →
    (o' = o ∨ o' = { o with orderstateid := some st })

lemma ordersSetOnly_refl (st : Nat) (l : List Order) : ordersSetOnly st l l := by
  refine ⟨rfl, fun i o o' h h' => ?_⟩
  rw [h] at h'
  exact Or.inl (Option.some_inj.mp h').symm

lemma updateOrderState_setOnly (db : DB) (oid : Int) (st : Nat) :
    ordersSetOnly st db.orders (updateOrderState db oid st).orders := by
  refine ⟨by simp [updateOrderState], fun i o o' ho ho' => ?_⟩
  simp only [updateOrderState, List.getElem?_map, ho, Option.map_some'] at ho'
  by_cases hc : ((o.orderid : Int) == oid) = true
  · rw [if_pos hc] at ho'
    exact Or.inr (Option.some_inj.mp ho').symm
  · rw [if_neg hc] at ho'
    exact Or.inl (Option.some_inj.mp ho').symm

lemma insertStateReg_frame (db : DB) (oid : Int) (st : Nat) (p : Int) (c : String) :
    (insertStateReg db oid st p c).orders = db.orders ∧
    (insertStateReg db oid st p c).orderitems = db.orderitems ∧
    (insertStateReg db oid st p c).models = db.models ∧
    (insertStateReg db oid st p c).elements = db.elements ∧
    (insertStateReg db oid st p c).whdetail = db.whdetail ∧
    (insertStateReg db oid st p c).orderstates = db.orderstates ∧
    (insertStateReg db oid st p c).now = db.now :=
  ⟨rfl, rfl, rfl, rfl, rfl, rfl, rfl⟩

/-- All tables but `ORDERS`, `ORDERSTATESREG` and the generator are untouched
by the completion monitor. -/
lemma monitor_frame (db : DB) (oid : Nat) :
    (orderCompletionMonitor db oid).whdetail = db.whdetail ∧
    (orderCompletionMonitor db oid).orderitems = db.orderitems ∧
    (orderCompletionMonitor db oid).models = db.models ∧
    (orderCompletionMonitor db oid).elements = db.elements ∧
    (orderCompletionMonitor db oid).orderstates = db.orderstates ∧
    (orderCompletionMonitor db oid).now = db.now := by
  unfold orderCompletionMonitor
  split_ifs <;> exact ⟨rfl, rfl, rfl, rfl, rfl, rfl⟩

lemma monitor_ordersSetOnly (db : DB) (oid : Nat) :
    ordersSetOnly 4 db.orders (orderCompletionMonitor db oid).orders := by
  unfold orderCompletionMonitor
  split_ifs
  · exact updateOrderState_setOnly
      (insertStateReg db (oid : Int) 4 ((maxStatePosit db (oid : Int)).getD 0 + 1)
        autoReadyComment) (oid : Int) 4
  · exact ordersSetOnly_refl 4 db.orders
  · exact ordersSetOnly_refl 4 db.orders

/-! Shape of the final database state of each resolver: everything the four
handlers do to the state factors through `updateWH`, `approveLoop`,
`orderCompletionMonitor` or the shipment insert/update pair. -/

lemma applier_updateFailed_db {db : DB} {refs : List WHRef} {db1 : DB}
    (h : applierOutcome db refs = .updateFailed db1) :
    db1 = (approveLoop db refs).2 := by
  unfold applierOutcome at h
  split_ifs at h
  exact (ApplyOutcome.updateFailed.inj h).symm

lemma applier_updated_db {db : DB} {refs : List WHRef} {n : Nat} {db1 : DB}
    (h : applierOutcome db refs = .updated n db1) :
    db1 = (approveLoop db refs).2 := by
  unfold applierOutcome at h
  split_ifs at h
  exact ((ApplyOutcome.updated.inj h).2).symm

lemma process_itm_snd (db : DB) (v : String) :
    (process_itm_barcode db v).2 = db ∨
    ∃ id, (process_itm_barcode db v).2 = (updateWH db id).2 := by
  unfold process_itm_barcode
  cases h1 : pyInt? v with
  | none => exact Or.inl rfl
  | some id =>
    dsimp only
    cases h2 : db.elements.filter (fun e => optEqInt e.itemsdetailid id) with
    | nil => exact Or.inl rfl
    | cons e es =>
      dsimp only
      cases h3 : db.whdetail.filter (fun w => w.ctelementsid == e.ctelementsid) with
      | nil => exact Or.inl rfl
      | cons w ws =>
        dsimp only
        by_cases h4 : (w.isapproved == 1) = true
        · rw [if_pos h4]
          exact Or.inl (respondWithInfo_snd _ _ _ _ db)
        · rw [if_neg h4]
          by_cases h5 : ((updateWH db w.ctwhdetailid).1 == 0) = true
          · rw [if_pos h5]
            exact Or.inr ⟨w.ctwhdetailid, rfl⟩
          · rw [if_neg h5]
            exact Or.inr ⟨w.ctwhdetailid, respondWithInfo_snd _ _ _ _ _⟩

lemma process_set_snd (db : DB) (v : String) :
    (process_set_barcode db v).2 = db ∨
    ∃ refs, (process_set_barcode db v).2 = (approveLoop db refs).2 := by
  unfold process_set_barcode
  cases h1 : pyInt? v with
  | none => exact Or.inl rfl
  | some id =>
    dsimp only
    cases h2 : db.elements.filter (fun e => optEqInt e.itemssetsid id) with
    | nil => exact Or.inl rfl
    | cons e es =>
      dsimp only
      cases h3 : (e :: es).flatMap
          (fun e => db.whdetail.filter (fun w => w.ctelementsid == e.ctelementsid)) with
      | nil => exact Or.inl rfl
      | cons w ws =>
        dsimp only
        cases hA : applierOutcome db
            ((w :: ws).map fun x => ⟨x.ctwhdetailid, x.isapproved⟩) with
        | alreadyApproved =>
          dsimp only
          exact Or.inl (respondWithInfo_snd _ _ _ _ db)
        | updateFailed db1 =>
          exact Or.inr ⟨_, applier_updateFailed_db hA⟩
        | updated n db1 =>
          dsimp only
          exact Or.inr ⟨_, (respondWithInfo_snd _ _ _ _ db1).trans (applier_updated_db hA)⟩

lemma process_izd_snd (db : DB) (v : String) :
    (process_izd_barcode db v).2 = db ∨
    (∃ refs, (process_izd_barcode db v).2 = (approveLoop db refs).2) ∨
    (∃ refs oid, (process_izd_barcode db v).2 =
      orderCompletionMonitor (approveLoop db refs).2 oid) := by
  unfold process_izd_barcode
  cases hres : resolveIzd db v with
  | error r => exact Or.inl rfl
  | ok r =>
    dsimp only
    cases hrec : r.whdetail_records with
    | nil => exact Or.inl rfl
    | cons w ws =>
      dsimp only
      cases hA : applierOutcome db
          ((w :: ws).map fun x => ⟨x.ctwhdetailid, x.isapproved⟩) with
      | alreadyApproved =>
        dsimp only
        exact Or.inl (respondWithInfo_snd _ _ _ _ db)
      | updateFailed db1 =>
        exact Or.inr (Or.inl ⟨_, applier_updateFailed_db hA⟩)
      | updated n db1 =>
        dsimp only
        refine Or.inr (Or.inr
          ⟨(w :: ws).map fun x => ⟨x.ctwhdetailid, x.isapproved⟩, r.order_id, ?_⟩)
        rw [respondWithInfo_snd, applier_updated_db hA]

lemma process_order_snd (db : DB) (v : String) :
    (process_order_barcode db v).2 = db ∨
    ∃ oid p, (process_order_barcode db v).2 =
      updateOrderState (insertStateReg db oid 5 p shipComment) oid 5 := by
  unfold process_order_barcode
  cases h1 : pyInt? v with
  | none => exact Or.inl rfl
  | some oid =>
    dsimp only
    cases h2 : orderStateJoin db oid with
    | nil => exact Or.inl rfl
    | cons p rest =>
      obtain ⟨o, sn⟩ := p
      dsimp only
      by_cases h3 : (o.orderstateid != some 4) = true
      · rw [if_pos h3]
        exact Or.inl rfl
      · rw [if_neg h3]
        exact Or.inr ⟨oid, _, rfl⟩

/-! Per-resolver approval-only evolution of `CT_WHDETAIL`. -/

lemma itm_approvalOnly (db : DB) (v : String) :
    approvalOnly db.now db.whdetail (process_itm_barcode db v).2.whdetail := by
  rcases process_itm_snd db v with h | ⟨id, h⟩ <;> rw [h]
  · exact approvalOnly_refl _ _
  · exact updateWH_approvalOnly db id

lemma set_approvalOnly (db : DB) (v : String) :
    approvalOnly db.now db.whdetail (process_set_barcode db v).2.whdetail := by
  rcases process_set_snd db v with h | ⟨refs, h⟩ <;> rw [h]
  · exact approvalOnly_refl _ _
  · exact approveLoop_approvalOnly refs db

lemma izd_approvalOnly (db : DB) (v : String) :
    approvalOnly db.now db.whdetail (process_izd_barcode db v).2.whdetail := by
  rcases process_izd_snd db v with h | ⟨refs, h⟩ | ⟨refs, oid, h⟩ <;> rw [h]
  · exact approvalOnly_refl _ _
  · exact approveLoop_approvalOnly refs db
  · rw [(monitor_frame (approveLoop db refs).2 oid).1]
    exact approveLoop_approvalOnly refs db

lemma ord_approvalOnly (db : DB) (v : String) :
    approvalOnly db.now db.whdetail (process_order_barcode db v).2.whdetail := by
  rcases process_order_snd db v with h | ⟨oid, p, h⟩ <;> rw [h] <;>
    exact approvalOnly_refl _ _

lemma process_barcode_approvalOnly (db : DB) (raw : String) :
    approvalOnly db.now db.whdetail (process_barcode db raw).2.whdetail := by
  unfold process_barcode
  dsimp only
  cases ht : (parse_barcode (pyStrip raw)).type
  case UNKNOWN => exact approvalOnly_refl _ _
  case IZD =>
    rcases hr : process_izd_barcode db (parse_barcode (pyStrip raw)).value with ⟨pr, db1⟩
    have := izd_approvalOnly db (parse_barcode (pyStrip raw)).value
    rw [hr] at this
    cases pr <;> exact this
  case LEGACY_IZD =>
    rcases hr : process_izd_barcode db (parse_barcode (pyStrip raw)).value with ⟨pr, db1⟩
    have := izd_approvalOnly db (parse_barcode (pyStrip raw)).value
    rw [hr] at this
    cases pr <;> exact this
  case ORD =>
    rcases hr : process_order_barcode db (parse_barcode (pyStrip raw)).value with ⟨pr, db1⟩
    have := ord_approvalOnly db (parse_barcode (pyStrip raw)).value
    rw [hr] at this
    cases pr <;> exact this
  case LEGACY_ORD =>
    rcases hr : process_order_barcode db (parse_barcode (pyStrip raw)).value with ⟨pr, db1⟩
    have := ord_approvalOnly db (parse_barcode (pyStrip raw)).value
    rw [hr] at this
    cases pr <;> exact this
  case ITM =>
    rcases hr : process_itm_barcode db (parse_barcode (pyStrip raw)).value with ⟨pr, db1⟩
    have := itm_approvalOnly db (parse_barcode (pyStrip raw)).value
    rw [hr] at this
    cases pr <;> exact this
  case SET =>
    rcases hr : process_set_barcode db (parse_barcode (pyStrip raw)).value with ⟨pr, db1⟩
    have := set_approvalOnly db (parse_barcode (pyStrip raw)).value
    rw [hr] at this
    cases pr <;> exact this

/-- C9. Material and set scans never touch the order workflow: all tables
other than `CT_WHDETAIL` are unchanged (in particular no
`StateTransitionRecord` is inserted and no order state moves), and the
warehouse table changes only by approving rows. -/
theorem material_set_scans_no_order_side_effects (db : DB) (v : String) :
    ((process_itm_barcode db v).2.orders = db.orders ∧
     (process_itm_barcode db v).2.orderstatesreg = db.orderstatesreg ∧
     (process_itm_barcode db v).2.orderitems = db.orderitems ∧
     (process_itm_barcode db v).2.models = db.models ∧
     (process_itm_barcode db v).2.elements = db.elements ∧
     (process_itm_barcode db v).2.orderstates = db.orderstates ∧
     approvalOnly db.now db.whdetail (process_itm_barcode db v).2.whdetail) ∧
    ((process_set_barcode db v).2.orders = db.orders ∧
     (process_set_barcode db v).2.orderstatesreg = db.orderstatesreg ∧
     (process_set_barcode db v).2.orderitems = db.orderitems ∧
     (process_set_barcode db v).2.models = db.models ∧
     (process_set_barcode db v).2.elements = db.elements ∧
     (process_set_barcode db v).2.orderstates = db.orderstates ∧
     approvalOnly db.now db.whdetail (process_set_barcode db v).2.whdetail) := by
  constructor
  · rcases process_itm_snd db v with h | ⟨id, h⟩ <;> rw [h]
    · exact ⟨rfl, rfl, rfl, rfl, rfl, rfl, approvalOnly_refl _ _⟩
    · have e := updateWH_eqExcept db id
      exact ⟨e.1, e.2.2.2.2.1, e.2.1, e.2.2.1, e.2.2.2.1, e.2.2.2.2.2.1,
        updateWH_approvalOnly db id⟩
  · rcases process_set_snd db v with h | ⟨refs, h⟩ <;> rw [h]
    · exact ⟨rfl, rfl, rfl, rfl, rfl, rfl, approvalOnly_refl _ _⟩
    · have e := approveLoop_eqExcept refs db
      exact ⟨e.1, e.2.2.2.2.1, e.2.1, e.2.2.1, e.2.2.2.1, e.2.2.2.2.2.1,
        approveLoop_approvalOnly refs db⟩

/-- Witness for C9 at a concrete material/set scan on `sampleDB`. -/
theorem material_set_scans_witness :
    (process_itm_barcode sampleDB "5").2.orders = sampleDB.orders ∧
    (process_set_barcode sampleDB "5").2.orderstatesreg = sampleDB.orderstatesreg :=
  ⟨(material_set_scans_no_order_side_effects sampleDB "5").1.1,
    (material_set_scans_no_order_side_effects sampleDB "5").2.2.1⟩

/-- C2. Once a `CT_WHDETAIL` row is approved, no operation of the system
(any barcode processed by the dispatcher) ever resets it: every write sets
`ISAPPROVED` to 1 and none sets it to 0. -/
theorem approved_flag_never_cleared (db : DB) (raw : String) (i : Nat)
    (w w' : WHDetail) (hw : db.whdetail[i]? = some w)
    (hw' : (process_barcode db raw).2.whdetail[i]? = some w')
    (ha : w.isapproved = 1) : w'.isapproved = 1 :=
  approvalOnly_keeps_approved (process_barcode_approvalOnly db raw) i w w' hw hw' ha

/-- Witness for C2: the already-approved row of `sampleDBReady` is still
approved after a re-scan of its unit barcode. -/
theorem approved_flag_never_cleared_witness :
    (⟨900, 500, 1, 1, none, some 555, 1⟩ : WHDetail).isapproved = 1 :=
  approved_flag_never_cleared sampleDBReady "011234567" 0
    ⟨900, 500, 1, 1, none, some 555, 1⟩ ⟨900, 500, 1, 1, none, some 555, 1⟩
    (by decide) (by decide) (by decide)

/-- The exact firing condition of the Order Completion Monitor: recomputed
`not_approved_count` equal to 0, recomputed total greater than 0, and the
order's current state not already 4 ("Ready"). -/
def monitorFires (db : DB) (oid : Nat) : Bool :=
  ((statNotApprovedCount (orderStatsRows db oid) == 0) &&
    decide (0 < (statTotal (orderStatsRows db oid)).getD 0)) &&
  (currentOrderState db (oid : Int) != some 4)

/-- C1. The Order Completion Monitor performs the Ready transition exactly
when the recomputed `not_approved_count` is 0, the recomputed total is
positive, and the order is not already in state 4 — in which case it first
inserts the `StateTransitionRecord` at `max(stateposit)+1` and then sets the
order's state field to 4, and otherwise leaves the state untouched; and a
unit-item scan never moves any order's state except to 4, so an order
already Ready stays Ready. -/
theorem completion_monitor_ready_iff_and_monotone (db : DB) (oid : Nat)
    (v : String) :
    (orderCompletionMonitor db oid =
      if monitorFires db oid then
        updateOrderState
          (insertStateReg db (oid : Int) 4 ((maxStatePosit db (oid : Int)).getD 0 + 1)
            autoReadyComment) (oid : Int) 4
      else db) ∧
    (∀ (i : Nat) (o o' : Order), db.orders[i]? = some o →
      (process_izd_barcode db v).2.orders[i]? = some o' →
      o.orderstateid = some 4 → o'.orderstateid = some 4) := by
  constructor
  · unfold orderCompletionMonitor monitorFires
    by_cases h1 : ((statNotApprovedCount (orderStatsRows db oid) == 0) &&
        decide (0 < (statTotal (orderStatsRows db oid)).getD 0)) = true
    · by_cases h2 : (currentOrderState db (oid : Int) != some 4) = true
      · have hc : (((statNotApprovedCount (orderStatsRows db oid) == 0) &&
            decide (0 < (statTotal (orderStatsRows db oid)).getD 0)) &&
            (currentOrderState db (oid : Int) != some 4)) = true := by
          rw [h1, h2]
          rfl
        rw [if_pos h1, if_pos h2, if_pos hc]
      · have hc : ¬ ((((statNotApprovedCount (orderStatsRows db oid) == 0) &&
            decide (0 < (statTotal (orderStatsRows db oid)).getD 0)) &&
            (currentOrderState db (oid : Int) != some 4)) = true) := by
          simp only [h1, Bool.true_and]
          exact h2
        rw [if_pos h1, if_neg h2, if_neg hc]
    · have hc : ¬ ((((statNotApprovedCount (orderStatsRows db oid) == 0) &&
          decide (0 < (statTotal (orderStatsRows db oid)).getD 0)) &&
          (currentOrderState db (oid : Int) != some 4)) = true) := by
        simp only [Bool.and_eq_true]
        rintro ⟨⟨hA, hB⟩, _⟩
        refine h1 ?_
        rw [hA, hB]
        rfl
      rw [if_neg h1, if_neg hc]
  · intro i o o' ho ho' h4
    rcases process_izd_snd db v with h | ⟨refs, h⟩ | ⟨refs, oid2, h⟩
    · rw [h, ho] at ho'
      rw [← Option.some_inj.mp ho']
      exact h4
    · rw [h, (approveLoop_eqExcept refs db).1, ho] at ho'
      rw [← Option.some_inj.mp ho']
      exact h4
    · have hso := monitor_ordersSetOnly (approveLoop db refs).2 oid2
      rw [(approveLoop_eqExcept refs db).1] at hso
      rw [h] at ho'
      rcases hso.2 i o o' ho ho' with he | he
      · rw [he]
        exact h4
      · rw [he]

/-- Witness for C1: the monitor equation evaluated on `sampleDB`, and the
monotonicity applied to the Ready order of `sampleDBReady` under a re-scan
of its unit barcode. -/
theorem completion_monitor_ready_witness :
    (orderCompletionMonitor sampleDB 1 =
      if monitorFires sampleDB 1 then
        updateOrderState
          (insertStateReg sampleDB (1 : Int) 4
            ((maxStatePosit sampleDB (1 : Int)).getD 0 + 1) autoReadyComment)
          (1 : Int) 4
      else sampleDB) ∧
    (⟨1, some "19686", some 7, some 4, none⟩ : Order).orderstateid = some 4 :=
  ⟨(completion_monitor_ready_iff_and_monotone sampleDB 1 "011234567").1,
    (completion_monitor_ready_iff_and_monotone sampleDBReady 1 "011234567").2 0
      ⟨1, some "19686", some 7, some 4, none⟩ ⟨1, some "19686", some 7, some 4, none⟩
      (by decide) (by decide) (by decide)⟩

/-- C8. Unit-item scans validate the value before any database access: a
value that is not exactly 9 digits is answered by the fixed invalid-format
failure with the state untouched; a valid value splits into the 2-digit item
number and the 7-digit glass reference; and when the item number exceeds the
resolved construction's planned quantity, the scan fails with the
exceeds-quantity message and mutates nothing. -/
theorem unit_scan_validation_and_qty_gate (db : DB) (v : String) :
    ((¬ (pyIsdigit v = true ∧ v.length = 9)) →
      process_izd_barcode db v = (.ok (izdInvalidFormatResp v), db)) ∧
    (pyIsdigit v = true → v.length = 9 →
      izdValidate v = .ok (natFromDigits (pyTake v 2), natFromDigits (pyDrop v 2))) ∧
    (∀ (itn gid : Nat) (gi : OrderItem) (go : Order) (onm cn : String)
        (poi : OrderItem) (po : Order),
      izdValidate v = .ok (itn, gid) →
      izdFindGlass db gid = .ok (gi, go) →
      izdParseName gi = .ok (onm, cn) →
      izdFindProduct db onm cn = .ok (poi, po) →
      (itn : Int) > poi.qty →
      process_izd_barcode db v =
        (.ok ⟨false, "Номер изделия " ++ toString itn ++ " превышает количество " ++
            toString poi.qty,
          "Ошибка. Номер изделия " ++ toString itn ++ " превышает количество " ++
            toString poi.qty, none⟩, db)) := by
  refine ⟨?_, ?_, ?_⟩
  · intro h
    have hc : izdValidate v = .error (izdInvalidFormatResp v) := by
      unfold izdValidate
      rw [if_pos]
      by_cases hd : pyIsdigit v = true
      · have hl : v.length ≠ 9 := fun hl => h ⟨hd, hl⟩
        simp [hl]
      · simp [hd]
    unfold process_izd_barcode resolveIzd
    rw [hc]
  · intro h1 h2
    unfold izdValidate
    rw [if_neg]
    simp [h1, h2]
  · intro itn gid gi go onm cn poi po hval hglass hname hprod hqty
    unfold process_izd_barcode resolveIzd
    rw [hval]
    dsimp only
    rw [hglass]
    dsimp only
    rw [hname]
    dsimp only
    rw [hprod]
    dsimp only
    rw [if_pos hqty]

/-- Witness for C8 at "12AB" (invalid), "021234567" (valid split) and the
quantity-1 construction of `sampleDB` scanned as its second copy. -/
theorem unit_scan_validation_witness :
    process_izd_barcode sampleDB "12AB" =
      (.ok (izdInvalidFormatResp "12AB"), sampleDB) ∧
    izdValidate "021234567" =
      .ok (natFromDigits (pyTake "021234567" 2), natFromDigits (pyDrop "021234567" 2)) ∧
    process_izd_barcode sampleDB "021234567" =
      (.ok ⟨false, "Номер изделия " ++ toString (2 : Nat) ++ " превышает количество " ++
          toString (1 : Int),
        "Ошибка. Номер изделия " ++ toString (2 : Nat) ++ " превышает количество " ++
          toString (1 : Int), none⟩, sampleDB) :=
  ⟨(unit_scan_validation_and_qty_gate sampleDB "12AB").1 (by decide),
    (unit_scan_validation_and_qty_gate sampleDB "021234567").2.1 (by decide) (by decide),
    (unit_scan_validation_and_qty_gate sampleDB "021234567").2.2 2 1234567
      ⟨1234567, some "19686 / 01 / C-1", 1, 1⟩ ⟨1, some "19686", some 7, some 2, none⟩
      "19686" "01" ⟨10, some "01", 1, 1⟩ ⟨1, some "19686", some 7, some 2, none⟩
      (by rfl) (by rfl) (by rfl) (by rfl) (by decide)⟩

/-! Inversion facts for the unit-item resolution stages, used for the
re-scan analysis. -/

lemma izdFindGlass_ok_iff {db : DB} {gid : Nat} {p : OrderItem × Order} :
    izdFindGlass db gid = .ok p ↔ ∃ t, orderitemOrderJoin db gid = p :: t := by
  unfold izdFindGlass
  cases h : orderitemOrderJoin db gid with
  | nil =>
    constructor
    · intro hk
      cases hk
    · rintro ⟨t, ht⟩
      cases ht
  | cons q qs =>
    constructor
    · intro hk
      exact ⟨qs, by rw [Except.ok.inj hk]⟩
    · rintro ⟨t, ht⟩
      rw [(List.cons.inj ht).1]

lemma izdFindProduct_ok_iff {db : DB} {a b : String} {p : OrderItem × Order} :
    izdFindProduct db a b = .ok p ↔ ∃ t, productJoin db a b = p :: t := by
  unfold izdFindProduct
  cases h : productJoin db a b with
  | nil =>
    constructor
    · intro hk
      cases hk
    · rintro ⟨t, ht⟩
      cases ht
  | cons q qs =>
    constructor
    · intro hk
      exact ⟨qs, by rw [Except.ok.inj hk]⟩
    · rintro ⟨t, ht⟩
      rw [(List.cons.inj ht).1]

lemma izdFindModels_ok_iff {db : DB} {oiid : Nat} {cn onum : String}
    {ms : List PModel} :
    izdFindModels db oiid cn onum = .ok ms ↔
      sortByModelNo (db.models.filter (fun m => m.orderitemsid == oiid)) = ms ∧
      ms ≠ [] := by
  unfold izdFindModels
  cases h : sortByModelNo (db.models.filter (fun m => m.orderitemsid == oiid)) with
  | nil =>
    constructor
    · intro hk
      cases hk
    · rintro ⟨h1, h2⟩
      exact absurd h1.symm h2
  | cons m mt =>
    constructor
    · intro hk
      exact ⟨Except.ok.inj hk, by simp [← Except.ok.inj hk]⟩
    · rintro ⟨h1, _⟩
      rw [← h1]

lemma izdFindRecords_ok_iff {db : DB} {models : List PModel} {itn : Nat}
    {cn onum : String} {l : List IzdWHRow} :
    izdFindRecords db models itn cn onum = .ok l ↔
      models.flatMap (fun m => izdWhJoin db m.modelid itn) = l ∧ l ≠ [] := by
  unfold izdFindRecords
  cases h : models.flatMap (fun m => izdWhJoin db m.modelid itn) with
  | nil =>
    constructor
    · intro hk
      cases hk
    · rintro ⟨h1, h2⟩
      exact absurd h1.symm h2
  | cons r rs =>
    constructor
    · intro hk
      exact ⟨Except.ok.inj hk, by simp [← Except.ok.inj hk]⟩
    · rintro ⟨h1, _⟩
      rw [← h1]

/-- Full inversion of a successful unit-item resolution. -/
lemma resolveIzd_inv {db : DB} {v : String} {r : IzdResolved}
    (h : resolveIzd db v = .ok r) :
    ∃ (itn gid : Nat) (gi : OrderItem) (go : Order) (onm cn : String)
      (poi : OrderItem) (po : Order) (models : List PModel),
      izdValidate v = .ok (itn, gid) ∧
      izdFindGlass db gid = .ok (gi, go) ∧
      izdParseName gi = .ok (onm, cn) ∧
      izdFindProduct db onm cn = .ok (poi, po) ∧
      ¬ ((itn : Int) > poi.qty) ∧
      izdFindModels db poi.orderitemsid cn (pyStripOr po.orderno "?") = .ok models ∧
      izdFindRecords db models itn cn (pyStripOr po.orderno "?") =
        .ok r.whdetail_records ∧
      r = ⟨itn, gid, onm, cn, poi.orderitemsid, pyStripOr po.orderno "?", poi.qty,
        po.orderid, po.proddate.map fmtDate, models.length, r.whdetail_records⟩ := by
  unfold resolveIzd at h
  rcases hval : izdValidate v with rv | ⟨itn, gid⟩ <;> rw [hval] at h <;> dsimp only at h
  · cases h
  rcases hglass : izdFindGlass db gid with rg | ⟨gi, go⟩ <;> rw [hglass] at h <;>
    dsimp only at h
  · cases h
  rcases hname : izdParseName gi with rn | ⟨onm, cn⟩ <;> rw [hname] at h <;>
    dsimp only at h
  · cases h
  rcases hprod : izdFindProduct db onm cn with rp | ⟨poi, po⟩ <;> rw [hprod] at h <;>
    dsimp only at h
  · cases h
  by_cases hq : (itn : Int) > poi.qty
  · rw [if_pos hq] at h
    cases h
  rw [if_neg hq] at h
  rcases hmodels : izdFindModels db poi.orderitemsid cn (pyStripOr po.orderno "?") with
    rm | models <;> rw [hmodels] at h <;> dsimp only at h
  · cases h
  rcases hrecs : izdFindRecords db models itn cn (pyStripOr po.orderno "?") with
    rr | recs <;> rw [hrecs] at h <;> dsimp only at h
  · cases h
  have hr := Except.ok.inj h
  refine ⟨itn, gid, gi, go, onm, cn, poi, po, models, rfl, hglass, hname, hprod, hq,
    hmodels, ?_, ?_⟩
  · rw [← hr]
    exact hrecs
  · rw [← hr]

lemma izdValidate_error_fail {v : String} {e : ApprovalResponse}
    (h : izdValidate v = .error e) : e.success = false := by
  unfold izdValidate at h
  split_ifs at h
  rw [← Except.error.inj h]
  rfl

lemma izdFindGlass_error_fail {db : DB} {gid : Nat} {e : ApprovalResponse}
    (h : izdFindGlass db gid = .error e) : e.success = false := by
  unfold izdFindGlass at h
  revert h
  cases orderitemOrderJoin db gid with
  | nil =>
    intro h
    rw [← Except.error.inj h]
  | cons q qs =>
    intro h
    cases h

lemma izdParseName_error_fail {gi : OrderItem} {e : ApprovalResponse}
    (h : izdParseName gi = .error e) : e.success = false := by
  unfold izdParseName at h
  dsimp only at h
  split_ifs at h
  · rw [← Except.error.inj h]
  · revert h
    cases pySplit (pyStripOr gi.name "") '/' with
    | nil =>
      intro h
      rw [← Except.error.inj h]
    | cons p0 ps =>
      cases ps with
      | nil =>
        intro h
        rw [← Except.error.inj h]
      | cons p1 ps2 =>
        intro h
        cases h

lemma izdFindProduct_error_fail {db : DB} {a b : String} {e : ApprovalResponse}
    (h : izdFindProduct db a b = .error e) : e.success = false := by
  unfold izdFindProduct at h
  revert h
  cases productJoin db a b with
  | nil =>
    intro h
    rw [← Except.error.inj h]
  | cons q qs =>
    intro h
    cases h

lemma izdFindModels_error_fail {db : DB} {oiid : Nat} {cn onum : String}
    {e : ApprovalResponse} (h : izdFindModels db oiid cn onum = .error e) :
    e.success = false := by
  unfold izdFindModels at h
  revert h
  cases sortByModelNo (db.models.filter (fun m => m.orderitemsid == oiid)) with
  | nil =>
    intro h
    rw [← Except.error.inj h]
  | cons m mt =>
    intro h
    cases h

lemma izdFindRecords_error_fail {db : DB} {models : List PModel} {itn : Nat}
    {cn onum : String} {e : ApprovalResponse}
    (h : izdFindRecords db models itn cn onum = .error e) : e.success = false := by
  unfold izdFindRecords at h
  revert h
  cases models.flatMap (fun m => izdWhJoin db m.modelid itn) with
  | nil =>
    intro h
    rw [← Except.error.inj h]
  | cons q qs =>
    intro h
    cases h

/-- Every failure response of the resolution stages carries `success=false`. -/
lemma resolveIzd_error_fail {db : DB} {v : String} {e : ApprovalResponse}
    (h : resolveIzd db v = .error e) : e.success = false := by
  unfold resolveIzd at h
  rcases hval : izdValidate v with rv | ⟨itn, gid⟩ <;> rw [hval] at h <;> dsimp only at h
  · exact (Except.error.inj h) ▸ izdValidate_error_fail hval
  rcases hglass : izdFindGlass db gid with rg | ⟨gi, go⟩ <;> rw [hglass] at h <;>
    dsimp only at h
  · exact (Except.error.inj h) ▸ izdFindGlass_error_fail hglass
  rcases hname : izdParseName gi with rn | ⟨onm, cn⟩ <;> rw [hname] at h <;>
    dsimp only at h
  · exact (Except.error.inj h) ▸ izdParseName_error_fail hname
  rcases hprod : izdFindProduct db onm cn with rp | ⟨poi, po⟩ <;> rw [hprod] at h <;>
    dsimp only at h
  · exact (Except.error.inj h) ▸ izdFindProduct_error_fail hprod
  by_cases hq : (itn : Int) > poi.qty
  · rw [if_pos hq] at h
    rw [← Except.error.inj h]
  rw [if_neg hq] at h
  rcases hmodels : izdFindModels db poi.orderitemsid cn (pyStripOr po.orderno "?") with
    rm | models <;> rw [hmodels] at h <;> dsimp only at h
  · exact (Except.error.inj h) ▸ izdFindModels_error_fail hmodels
  rcases hrecs : izdFindRecords db models itn cn (pyStripOr po.orderno "?") with
    rr | recs <;> rw [hrecs] at h <;> dsimp only at h
  · exact (Except.error.inj h) ▸ izdFindRecords_error_fail hrecs
  cases h

/-- A resolved record set is never empty. -/
lemma resolveIzd_records_ne_nil {db : DB} {v : String} {r : IzdResolved}
    (h : resolveIzd db v = .ok r) : r.whdetail_records ≠ [] := by
  obtain ⟨_, _, _, _, _, _, _, _, _, _, _, _, _, _, _, hrecs, _⟩ := resolveIzd_inv h
  exact (izdFindRecords_ok_iff.mp hrecs).2

/-- A record set whose rows are all approved makes the applier answer
`alreadyApproved`. -/
lemma applier_all_approved {db : DB} {refs : List WHRef}
    (h : ∀ x ∈ refs, x.isapproved = 1) :
    applierOutcome db refs = .alreadyApproved := by
  unfold applierOutcome
  rw [if_pos]
  rw [beq_iff_eq]
  exact List.filter_length_eq_length.mpr fun a ha => by simp [h a ha]

/-- Witness for C4's routing conjunct at the barcode " hello-world ": it
classifies Unknown and the dispatcher answers with the fixed format error. -/
theorem classifier_unknown_routing_witness :
    (parse_barcode (pyStrip " hello-world ")).type = BKind.UNKNOWN ∧
    process_barcode sampleDB " hello-world " =
      (⟨false, "Неизвестный формат штрихкода: " ++ pyStrip " hello-world ",
        "Ошибка. Неизвестный формат штрихкода", none⟩, sampleDB) :=
  ⟨by decide,
    (classifier_follows_ordered_rules).2 sampleDB " hello-world " (by decide)⟩

/-! Transport of the resolution queries along an orders-only rewrite: the
completion monitor only maps the `ORDERS` table through a function that
preserves `ORDERID` and `ORDERNO`, so both joins of the unit-item path
commute with it. -/

lemma filter_map_of_pres {α : Type} (p : α → Bool) (f : α → α) (l : List α)
    (hp : ∀ a, p (f a) = p a) : (l.map f).filter p = (l.filter p).map f := by
  rw [List.filter_map]
  congr 1
  exact List.filter_congr fun a _ => hp a

lemma orderitemOrderJoin_map {db1 db : DB} {f : Order → Order}
    (hOI : db1.orderitems = db.orderitems) (hOrd : db1.orders = db.orders.map f)
    (hfid : ∀ o, (f o).orderid = o.orderid) (oiid : Nat) :
    orderitemOrderJoin db1 oiid =
      (orderitemOrderJoin db oiid).map fun p => (p.1, f p.2) := by
  unfold orderitemOrderJoin
  rw [hOI, hOrd, List.map_flatMap]
  congr 1
  funext oi
  rw [filter_map_of_pres _ f _ (fun o => by rw [hfid o]), List.map_map, List.map_map]
  rfl

lemma productJoin_map {db1 db : DB} {f : Order → Order}
    (hOI : db1.orderitems = db.orderitems) (hOrd : db1.orders = db.orders.map f)
    (hfid : ∀ o, (f o).orderid = o.orderid)
    (hfno : ∀ o, (f o).orderno = o.orderno) (a b : String) :
    productJoin db1 a b = (productJoin db a b).map fun p => (p.1, f p.2) := by
  unfold productJoin
  rw [hOI, hOrd, List.map_flatMap]
  congr 1
  funext oi
  by_cases hn : optEqStr oi.name b = true
  · rw [if_pos hn, if_pos hn,
      filter_map_of_pres _ f _ (fun o => by rw [hfid o, hfno o]),
      List.map_map, List.map_map]
    rfl
  · rw [if_neg hn, if_neg hn]
    rfl

/-- The completion monitor rewrites `ORDERS` by a per-row map preserving
the id, number and production date. -/
lemma monitor_orders_map (db : DB) (oid : Nat) :
    ∃ f : Order → Order, (orderCompletionMonitor db oid).orders = db.orders.map f ∧
      ∀ o, (f o).orderid = o.orderid ∧ (f o).orderno = o.orderno ∧
        (f o).proddate = o.proddate := by
  unfold orderCompletionMonitor
  split_ifs
  · refine ⟨fun o => if (o.orderid : Int) == (oid : Int) then
      { o with orderstateid := some 4 } else o, rfl, fun o => ?_⟩
    dsimp only
    by_cases hc : ((o.orderid : Int) == (oid : Int)) = true
    · rw [if_pos hc]
      exact ⟨rfl, rfl, rfl⟩
    · rw [if_neg hc]
      exact ⟨rfl, rfl, rfl⟩
  · exact ⟨id, (List.map_id _).symm, fun o => ⟨rfl, rfl, rfl⟩⟩
  · exact ⟨id, (List.map_id _).symm, fun o => ⟨rfl, rfl, rfl⟩⟩

/-- Membership characterization of the per-model warehouse join. -/
lemma izdWhJoin_mem {db : DB} {mid itn : Nat} {row : IzdWHRow} :
    row ∈ izdWhJoin db mid itn ↔
      ∃ w ∈ db.whdetail, (w.itemno == itn) = true ∧
        ∃ e ∈ db.elements,
          (e.ctelementsid == w.ctelementsid && e.modelid == mid &&
            e.cttypeelemsid == 2) = true ∧
          row = ⟨w.ctwhdetailid, w.ctelementsid, w.itemno, w.isapproved,
            w.userapproved, w.dateapproved, e.rname, e.width, e.height,
            e.modelid⟩ := by
  unfold izdWhJoin
  constructor
  · intro h
    obtain ⟨w, hw, hrow⟩ := List.mem_flatMap.mp h
    by_cases hit : (w.itemno == itn) = true
    · rw [if_pos hit] at hrow
      obtain ⟨e, he2, heq⟩ := List.mem_map.mp hrow
      exact ⟨w, hw, hit, e, (List.mem_filter.mp he2).1, (List.mem_filter.mp he2).2,
        heq.symm⟩
    · rw [if_neg hit] at hrow
      cases hrow
  · rintro ⟨w, hw, hit, e, he, hcond, heq⟩
    refine List.mem_flatMap.mpr ⟨w, hw, ?_⟩
    rw [if_pos hit]
    exact List.mem_map.mpr ⟨e, List.mem_filter.mpr ⟨he, hcond⟩, heq.symm⟩

/-- Inversion of a returned (not raised) `respondWithInfo` pair. -/
lemma respondWithInfo_ok_inv {s : Bool} {m vo : String} {i : Option ProductInfo}
    {db db1 : DB} {resp : ApprovalResponse}
    (h : respondWithInfo s m vo i db = (.ok resp, db1)) :
    resp.success = s ∧ db1 = db := by
  unfold respondWithInfo at h
  cases i with
  | some pi =>
    dsimp only at h
    refine ⟨?_, ((Prod.mk.inj h).2).symm⟩
    rw [← PyResult.ok.inj (Prod.mk.inj h).1]
  | none =>
    dsimp only at h
    cases (Prod.mk.inj h).1

/-- The success flag of a returned `respondWithInfo` response is the one
passed in. -/
lemma respondWithInfo_fst_success {s : Bool} {m vo : String}
    {i : Option ProductInfo} {db : DB} {a : ApprovalResponse}
    (h : (respondWithInfo s m vo i db).1 = .ok a) : a.success = s := by
  unfold respondWithInfo at h
  cases i with
  | some pi =>
    dsimp only at h
    rw [← PyResult.ok.inj h]
  | none =>
    dsimp only at h
    cases h

/-- Inversion of a successful (success=true) unit-item scan: the resolution
succeeded and the final state is the completion monitor applied to the
post-update-loop state. -/
lemma process_izd_success_inv {db db1 : DB} {v : String} {resp : ApprovalResponse}
    (h : process_izd_barcode db v = (.ok resp, db1)) (hs : resp.success = true) :
    ∃ r : IzdResolved, resolveIzd db v = .ok r ∧
      db1 = orderCompletionMonitor
        (approveLoop db (r.whdetail_records.map fun w =>
          (⟨w.ctwhdetailid, w.isapproved⟩ : WHRef))).2 r.order_id := by
  unfold process_izd_barcode at h
  rcases hres : resolveIzd db v with e | r <;> rw [hres] at h <;> dsimp only at h
  · rw [← PyResult.ok.inj (Prod.mk.inj h).1] at hs
    rw [resolveIzd_error_fail hres] at hs
    cases hs
  · rcases hrec : r.whdetail_records with _ | ⟨w0, ws0⟩ <;> rw [hrec] at h <;>
      dsimp only at h
    · cases (Prod.mk.inj h).1
    · rcases hA : applierOutcome db ((w0 :: ws0).map fun w =>
          (⟨w.ctwhdetailid, w.isapproved⟩ : WHRef)) with _ | dbx | ⟨n, dbx⟩ <;>
        rw [hA] at h <;> dsimp only at h
      · obtain ⟨hss, _⟩ := respondWithInfo_ok_inv h
        rw [hss] at hs
        cases hs
      · rw [← PyResult.ok.inj (Prod.mk.inj h).1] at hs
        cases hs
      · obtain ⟨_, hdb⟩ := respondWithInfo_ok_inv h
        refine ⟨r, rfl, ?_⟩
        rw [hdb, applier_updated_db hA, hrec]

/-- The heart of the rescan argument: any later state whose non-whdetail
resolution inputs agree (orders up to an id/number-preserving map), whose
warehouse rows kept their key columns, and whose rows corresponding to the
first scan's resolved records are all approved, answers the same barcode
without any state change and without success. -/
lemma izd_rescan_core (db db1 : DB) (v : String) (r : IzdResolved)
    (hres : resolveIzd db v = .ok r)
    (hOI : db1.orderitems = db.orderitems)
    (hM : db1.models = db.models)
    (hE : db1.elements = db.elements)
    (hOrd : ∃ f : Order → Order, db1.orders = db.orders.map f ∧
      ∀ o, (f o).orderid = o.orderid ∧ (f o).orderno = o.orderno)
    (hWlen : db1.whdetail.length = db.whdetail.length)
    (hWkey : ∀ (i : Nat) (w w' : WHDetail), db.whdetail[i]? = some w →
      db1.whdetail[i]? = some w' →
      w'.ctwhdetailid = w.ctwhdetailid ∧ w'.ctelementsid = w.ctelementsid ∧
      w'.itemno = w.itemno)
    (hWappr : ∀ (i : Nat) (w w' : WHDetail), db.whdetail[i]? = some w →
      db1.whdetail[i]? = some w' →
      (⟨w.ctwhdetailid, w.isapproved⟩ : WHRef) ∈
        r.whdetail_records.map (fun x => (⟨x.ctwhdetailid, x.isapproved⟩ : WHRef)) →
      w'.isapproved = 1) :
    (process_izd_barcode db1 v).2 = db1 ∧
    ∀ a : ApprovalResponse, (process_izd_barcode db1 v).1 = .ok a →
      a.success = false := by
  obtain ⟨f, hOrdm, hf⟩ := hOrd
  obtain ⟨itn, gid, gi, go, onm, cn, poi, po, models, hval, hglass, hname, hprod,
    hq, hmodels, hrecs, _⟩ := resolveIzd_inv hres
  obtain ⟨t, ht⟩ := izdFindGlass_ok_iff.mp hglass
  have hglass1 : izdFindGlass db1 gid = .ok (gi, f go) :=
    izdFindGlass_ok_iff.mpr ⟨t.map fun p => (p.1, f p.2), by
      rw [orderitemOrderJoin_map hOI hOrdm (fun o => (hf o).1) gid, ht]; rfl⟩
  obtain ⟨t2, ht2⟩ := izdFindProduct_ok_iff.mp hprod
  have hprod1 : izdFindProduct db1 onm cn = .ok (poi, f po) :=
    izdFindProduct_ok_iff.mpr ⟨t2.map fun p => (p.1, f p.2), by
      rw [productJoin_map hOI hOrdm (fun o => (hf o).1) (fun o => (hf o).2) onm cn,
        ht2]; rfl⟩
  have hmodels1 : izdFindModels db1 poi.orderitemsid cn
      (pyStripOr (f po).orderno "?") = .ok models := by
    refine izdFindModels_ok_iff.mpr ⟨?_, (izdFindModels_ok_iff.mp hmodels).2⟩
    rw [hM]
    exact (izdFindModels_ok_iff.mp hmodels).1
  rcases hREC : izdFindRecords db1 models itn cn (pyStripOr (f po).orderno "?")
      with e | l
  · have hresE : resolveIzd db1 v = .error e := by
      unfold resolveIzd
      rw [hval]
      dsimp only
      rw [hglass1]
      dsimp only
      rw [hname]
      dsimp only
      rw [hprod1]
      dsimp only
      rw [if_neg hq]
      rw [hmodels1]
      dsimp only
      rw [hREC]
    constructor
    · unfold process_izd_barcode
      rw [hresE]
    · intro a ha
      unfold process_izd_barcode at ha
      rw [hresE] at ha
      dsimp only at ha
      rw [← PyResult.ok.inj ha]
      exact resolveIzd_error_fail hresE
  · have hflat := (izdFindRecords_ok_iff.mp hREC).1
    have hres1 : resolveIzd db1 v = .ok ⟨itn, gid, onm, cn, poi.orderitemsid,
        pyStripOr (f po).orderno "?", poi.qty, (f po).orderid,
        (f po).proddate.map fmtDate, models.length, l⟩ := by
      unfold resolveIzd
      rw [hval]
      dsimp only
      rw [hglass1]
      dsimp only
      rw [hname]
      dsimp only
      rw [hprod1]
      dsimp only
      rw [if_neg hq]
      rw [hmodels1]
      dsimp only
      rw [hREC]
    have hall1 : ∀ row ∈ l, row.isapproved = 1 := by
      intro row hrow
      rw [← hflat] at hrow
      obtain ⟨m, hm, hrowj⟩ := List.mem_flatMap.mp hrow
      obtain ⟨w', hw', hit', e, he, hcond, hroweq⟩ := izdWhJoin_mem.mp hrowj
      obtain ⟨i, hi⟩ := List.mem_iff_getElem?.mp hw'
      have hilt : i < db.whdetail.length := by
        rw [← hWlen]
        exact (List.getElem?_eq_some.mp hi).1
      obtain ⟨w0, hwi⟩ : ∃ w0, db.whdetail[i]? = some w0 :=
        ⟨db.whdetail[i], List.getElem?_eq_getElem hilt⟩
      obtain ⟨hk1, hk2, hk3⟩ := hWkey i w0 w' hwi hi
      have hrow0 : (⟨w0.ctwhdetailid, w0.ctelementsid, w0.itemno, w0.isapproved,
          w0.userapproved, w0.dateapproved, e.rname, e.width, e.height,
          e.modelid⟩ : IzdWHRow) ∈ izdWhJoin db m.modelid itn := by
        refine izdWhJoin_mem.mpr ⟨w0, List.mem_iff_getElem?.mpr ⟨i, hwi⟩, ?_, e,
          ?_, ?_, rfl⟩
        · rw [← hk3]
          exact hit'
        · rw [← hE]
          exact he
        · rw [← hk2]
          exact hcond
      have hrmem : (⟨w0.ctwhdetailid, w0.ctelementsid, w0.itemno, w0.isapproved,
          w0.userapproved, w0.dateapproved, e.rname, e.width, e.height,
          e.modelid⟩ : IzdWHRow) ∈ r.whdetail_records := by
        rw [← (izdFindRecords_ok_iff.mp hrecs).1]
        exact List.mem_flatMap.mpr ⟨m, hm, hrow0⟩
      have happr := hWappr i w0 w' hwi hi (List.mem_map.mpr ⟨_, hrmem, rfl⟩)
      rw [hroweq]
      exact happr
    rcases l with _ | ⟨r1, rs⟩
    · exact absurd rfl (izdFindRecords_ok_iff.mp hREC).2
    · have hA1 : applierOutcome db1 ((r1 :: rs).map fun x =>
          (⟨x.ctwhdetailid, x.isapproved⟩ : WHRef)) = .alreadyApproved := by
        apply applier_all_approved
        intro x hx
        obtain ⟨row, hrow, hxeq⟩ := List.mem_map.mp hx
        rw [← hxeq]
        exact hall1 row hrow
      constructor
      · unfold process_izd_barcode
        rw [hres1]
        dsimp only
        rw [hA1]
        dsimp only
        exact respondWithInfo_snd _ _ _ _ db1
      · intro a ha
        unfold process_izd_barcode at ha
        rw [hres1] at ha
        dsimp only at ha
        rw [hA1] at ha
        dsimp only at ha
        exact respondWithInfo_fst_success ha

/-- C3. For every valid 9-digit unit barcode whose resolved set of warehouse
rows is non-empty and entirely approved, the unit-item resolver returns the
already-approved outcome: a failure-shaped (success=false) response whose
message carries the head row's approval timestamp and whose `product_info`
carries the full order/product context, while the database is returned
untouched (no UPDATE is issued). Consequently, re-scanning the same barcode
after a first successful (success=true) approval changes nothing: the
post-approval state is returned exactly as it was, and the rescan can never
answer with success again. -/
theorem unit_rescan_already_approved_and_immutable (db : DB) (v : String) :
    (∀ r : IzdResolved, resolveIzd db v = .ok r →
      (∀ w ∈ r.whdetail_records, w.isapproved = 1) →
      (process_izd_barcode db v).2 = db ∧
      ∀ w ws, r.whdetail_records = w :: ws →
        process_izd_barcode db v =
          (.ok ⟨false,
            "Изделие уже было отмечено готовым" ++ dateApprovedStr w.dateapproved,
            "Изделие уже было отмечено готовым",
            mkProductInfo (some r.order_number) r.proddate
              (some r.construction_number) (some (r.item_number : Int))
              (some (r.orderitems_id : Int)) (some r.construction_number)
              (some r.orderitem_qty) (pyStripOpt w.element_name) w.width w.height
              (some (r.glass_orderitems_id : Int)) (some (r.order_id : Int))
              (some ((statTotal (orderStatsRows db r.order_id)).getD 0))
              (some ((statTotal ((orderStatsRows db r.order_id).filter
                (fun p => p.2.isapproved == 1))).getD 0))⟩, db)) ∧
    (∀ (resp : ApprovalResponse) (db1 : DB),
      process_izd_barcode db v = (.ok resp, db1) → resp.success = true →
      (process_izd_barcode db1 v).2 = db1 ∧
      ∀ a : ApprovalResponse, (process_izd_barcode db1 v).1 = .ok a →
        a.success = false) := by
  constructor
  · intro r hres hall
    have hA : ∀ w ws, r.whdetail_records = w :: ws →
        applierOutcome db ((w :: ws).map fun x =>
          (⟨x.ctwhdetailid, x.isapproved⟩ : WHRef)) = .alreadyApproved := by
      intro w ws hrec
      apply applier_all_approved
      intro x hx
      obtain ⟨row, hrow, hxeq⟩ := List.mem_map.mp hx
      rw [← hxeq]
      refine hall row ?_
      rw [hrec]
      exact hrow
    constructor
    · rcases hrec : r.whdetail_records with _ | ⟨w0, ws0⟩
      · exact absurd hrec (resolveIzd_records_ne_nil hres)
      · unfold process_izd_barcode
        rw [hres]
        dsimp only
        rw [hrec]
        dsimp only
        rw [hA w0 ws0 hrec]
        dsimp only
        exact respondWithInfo_snd _ _ _ _ db
    · intro w ws hrec
      unfold process_izd_barcode
      rw [hres]
      dsimp only
      rw [hrec]
      dsimp only
      rw [hA w ws hrec]
      dsimp only
      rfl
  · intro resp db1 h hs
    obtain ⟨r, hres, hdb1⟩ := process_izd_success_inv h hs
    refine izd_rescan_core db db1 v r hres ?_ ?_ ?_ ?_ ?_ ?_ ?_
    · rw [hdb1, (monitor_frame _ _).2.1]
      exact (approveLoop_eqExcept _ db).2.1
    · rw [hdb1, (monitor_frame _ _).2.2.1]
      exact (approveLoop_eqExcept _ db).2.2.1
    · rw [hdb1, (monitor_frame _ _).2.2.2.1]
      exact (approveLoop_eqExcept _ db).2.2.2.1
    · obtain ⟨g, hg, hgp⟩ := monitor_orders_map
        (approveLoop db (r.whdetail_records.map fun w =>
          (⟨w.ctwhdetailid, w.isapproved⟩ : WHRef))).2 r.order_id
      refine ⟨g, ?_, fun o => ⟨(hgp o).1, (hgp o).2.1⟩⟩
      rw [hdb1, hg, (approveLoop_eqExcept _ db).1]
    · rw [hdb1, (monitor_frame _ _).1]
      exact (approveLoop_approvalOnly _ db).1
    · intro i w w' hw hw'
      rw [hdb1, (monitor_frame _ _).1] at hw'
      rcases (approveLoop_approvalOnly _ db).2 i w w' hw hw' with he | he <;>
        rw [he] <;> exact ⟨rfl, rfl, rfl⟩
    · intro i w w' hw hw' hmem
      rw [hdb1, (monitor_frame _ _).1] at hw'
      by_cases hap : w.isapproved = 1
      · exact approvalOnly_keeps_approved (approveLoop_approvalOnly _ db) i w w'
          hw hw' hap
      · obtain ⟨w2, hw2, hw2a⟩ := approveLoop_sets
          (r.whdetail_records.map fun x =>
            (⟨x.ctwhdetailid, x.isapproved⟩ : WHRef)) db i w hw
          ⟨w.ctwhdetailid, w.isapproved⟩ hmem rfl hap
        rw [hw2] at hw'
        rw [← Option.some_inj.mp hw']
        exact hw2a

/-- Witness for C3: on `sampleDBReady` (all rows approved) the scan of
"011234567" leaves the state untouched, and the state produced by the first
successful scan of "011234567" on `sampleDB` is left untouched by an
immediate rescan. -/
theorem unit_rescan_already_approved_witness :
    (process_izd_barcode sampleDBReady "011234567").2 = sampleDBReady ∧
    (process_izd_barcode
      (⟨[⟨1, some "19686", some 7, some 4, none⟩],
        [⟨1234567, some "19686 / 01 / C-1", 1, 1⟩, ⟨10, some "01", 1, 1⟩],
        [⟨100, 1, 10⟩],
        [⟨500, some "elem", some 100, some 200, 100, some 10, none, none, 2⟩],
        [⟨900, 500, 1, 1, none, some 1000, 1⟩],
        [⟨1, 1, 2, 8, 0, 1, "x"⟩, ⟨51, 1, 4, 8, 1000, 2, autoReadyComment⟩],
        [⟨4, some "Готов"⟩, ⟨2, some "В работе"⟩], 51, 1000⟩ : DB)
      "011234567").2 =
      ⟨[⟨1, some "19686", some 7, some 4, none⟩],
        [⟨1234567, some "19686 / 01 / C-1", 1, 1⟩, ⟨10, some "01", 1, 1⟩],
        [⟨100, 1, 10⟩],
        [⟨500, some "elem", some 100, some 200, 100, some 10, none, none, 2⟩],
        [⟨900, 500, 1, 1, none, some 1000, 1⟩],
        [⟨1, 1, 2, 8, 0, 1, "x"⟩, ⟨51, 1, 4, 8, 1000, 2, autoReadyComment⟩],
        [⟨4, some "Готов"⟩, ⟨2, some "В работе"⟩], 51, 1000⟩ :=
  ⟨((unit_rescan_already_approved_and_immutable sampleDBReady "011234567").1
      ⟨1, 1234567, "19686", "01", 10, "19686", 1, 1, some "date:7", 1,
        [⟨900, 500, 1, 1, none, some 555, some "elem", some 100, some 200, 100⟩]⟩
      (by rfl) (by decide)).1,
    ((unit_rescan_already_approved_and_immutable sampleDB "011234567").2
      ⟨true,
        "Успешно оприходовано 1 изделие(й) из 1 модели(ей). ЗАКАЗ 19686 ПОЛНОСТЬЮ ГОТОВ!",
        "Заказ 19686 полностью готов!",
        some ⟨"19686", "01", 1, 10, "01", 1, some "elem", some 100, some 200,
          1234567, some 1, some 1, some 1⟩⟩
      ⟨[⟨1, some "19686", some 7, some 4, none⟩],
        [⟨1234567, some "19686 / 01 / C-1", 1, 1⟩, ⟨10, some "01", 1, 1⟩],
        [⟨100, 1, 10⟩],
        [⟨500, some "elem", some 100, some 200, 100, some 10, none, none, 2⟩],
        [⟨900, 500, 1, 1, none, some 1000, 1⟩],
        [⟨1, 1, 2, 8, 0, 1, "x"⟩, ⟨51, 1, 4, 8, 1000, 2, autoReadyComment⟩],
        [⟨4, some "Готов"⟩, ⟨2, some "В работе"⟩], 51, 1000⟩
      (by rfl) rfl).1⟩

end Barcodes
